import Mathlib

/-!
Verification of the workflow-assembly layer of
`abiflows/fireworks/workflows/abinit_workflows.py`.

The Python module builds small directed acyclic graphs of "fireworks"
(execution containers), each carrying a string-keyed mutable mapping (the
execution specification, a Python dict), and later retrieves results from a
persisted graph.  The embedding below models:

* Python dicts as insertion-ordered association lists (`PyDict`);
* the Python heap of dict objects as a store indexed by allocation order
  (`PyHeap`), so that aliasing, `dict(spec)` shallow copies and in-place
  item assignment are represented faithfully;
* each workflow builder's `__init__` as a state-passing function over the
  heap, following the source line by line;
* the result-retrieval classmethods (`get_final_structure_and_history`,
  `get_runtime_secs`) over a model of a persisted workflow, with Python
  exceptions mapped to an `Except` monad.
-/

set_option maxHeartbeats 1000000

/-! ## Definitions: the embedding of the module -/

/-- Values stored in the Python dicts used by this module: strings, integers,
references to other heap-allocated dicts (a shallow `dict(d)` copy aliases
nested mappings), lists of strings, and the opaque queue-adapter profile. -/
inductive PyVal where
  | str (s : String)
  | int (n : Int)
  | ref (r : Nat)
  | strList (l : List String)
  | qadapter
  deriving DecidableEq, Repr

/-- An insertion-ordered string-keyed mapping: the model of a Python dict's
contents. -/
structure PyDict where
  entries : List (String × PyVal)
  deriving DecidableEq, Repr

/-- Lookup of a key in an association list (first match, as in a dict whose
keys are unique). -/
def lookupEntries : List (String × PyVal) → String → Option PyVal
  | [], _ => none
  | (k', v') :: t, k => if k' = k then some v' else lookupEntries t k

def PyDict.lookup (d : PyDict) (k : String) : Option PyVal :=
  lookupEntries d.entries k

/-- Python item assignment `d[k] = v`: replace the value in place if the key
is present, append the pair otherwise. -/
def insertEntries : List (String × PyVal) → String → PyVal → List (String × PyVal)
  | [], k, v => [(k, v)]
  | (k', v') :: t, k, v => if k' = k then (k, v) :: t else (k', v') :: insertEntries t k v

def PyDict.insert (d : PyDict) (k : String) (v : PyVal) : PyDict :=
  ⟨insertEntries d.entries k v⟩

/-- Python `d1.update(d2)`: assign every key of `d2` into `d1`, in order. -/
def PyDict.updateAll (d1 d2 : PyDict) : PyDict :=
  d2.entries.foldl (fun a p => a.insert p.1 p.2) d1

def PyDict.empty : PyDict := ⟨[]⟩

/-- Heap cell read with out-of-range default, used to model dereferencing. -/
def listGetD : List PyDict → Nat → PyDict
  | [], _ => PyDict.empty
  | d :: _, 0 => d
  | _ :: t, n + 1 => listGetD t n

/-- Replace the cell at an index, leaving other cells untouched. -/
def listSetAt : List PyDict → Nat → PyDict → List PyDict
  | [], _, _ => []
  | _ :: t, 0, d => d :: t
  | x :: t, n + 1, d => x :: listSetAt t n d

/-- The Python heap restricted to dict objects: a store of dict contents,
indexed by allocation order.  References (`Nat`) play the role of object
identity. -/
structure PyHeap where
  store : List PyDict
  deriving DecidableEq, Repr

def PyHeap.get (h : PyHeap) (r : Nat) : PyDict := listGetD h.store r

def PyHeap.alloc (h : PyHeap) (d : PyDict) : PyHeap × Nat :=
  (⟨h.store ++ [d]⟩, h.store.length)

def PyHeap.writeRef (h : PyHeap) (r : Nat) (d : PyDict) : PyHeap :=
  ⟨listSetAt h.store r d⟩

/-- In-place item assignment `heap[r][k] = v`. -/
def PyHeap.setItem (h : PyHeap) (r : Nat) (k : String) (v : PyVal) : PyHeap :=
  h.writeRef r ((h.get r).insert k v)

/-- A shallow copy `dict(d)`: a fresh object holding the same entries. -/
def PyHeap.copyDict (h : PyHeap) (r : Nat) : PyHeap × Nat :=
  h.alloc (h.get r)

inductive FwTaskKind where
  | abi | scf | relax | relaxDilatmx | nscf | genPhonon | hybrid | ddk | strainPert | anaddb
  deriving DecidableEq, Repr

structure FwTaskModel where
  kind : FwTaskKind
  abiinput : Nat
  isAutoparal : Bool
  deps : List (FwTaskKind × String)
  depExts : List String
  targetDilatmx : Option Nat
  deriving DecidableEq, Repr

/-- An execution container.  The external engine's `Firework.__init__` stores
`spec.copy()`, so construction allocates a fresh dict holding the entries the
given spec has at that moment. -/
structure FireworkModel where
  tasks : List FwTaskModel
  specRef : Nat
  deriving DecidableEq, Repr

def mkFirework (h : PyHeap) (tasks : List FwTaskModel) (specRef : Nat) :
    PyHeap × FireworkModel :=
  let p := h.copyDict specRef
  (p.1, ⟨tasks, p.2⟩)

/-- A workflow graph as built by the constructors: the list of fireworks, the
precedence edges (positions into that list, mirroring the `links_dict`
argument) and the workflow metadata dict. -/
structure WorkflowModel where
  fireworks : List FireworkModel
  links : List (Nat × Nat)
  metadata : PyDict
  deriving DecidableEq, Repr

/-- Bounded reachability along the edge list (fuel-indexed). -/
def reachesB (edges : List (Nat × Nat)) : Nat → Nat → Nat → Bool
  | 0, _, _ => false
  | fuel + 1, a, b =>
      edges.any (fun e => e.1 == a && (e.2 == b || reachesB edges fuel e.2 b))

/-- A graph on `numNodes` nodes is acyclic when no node reaches itself. -/
def isAcyclicB (numNodes : Nat) (edges : List (Nat × Nat)) : Bool :=
  (List.range numNodes).all (fun v => !(reachesB edges numNodes v v))

def WorkflowModel.acyclicB (w : WorkflowModel) : Bool :=
  isAcyclicB w.fireworks.length w.links

/-- Modelled from the spec: `get_short_single_core_spec` lives in
`abiflows.fireworks.utils.fw_utils`, which is not among the sources; per the
spec it returns the queue-adapter profile sized for a short single-core dry
run, modelled here as one opaque value. -/
def get_short_single_core_spec : PyVal := PyVal.qadapter

/-- AbstractFWWorkflow.set_short_single_core_to_spec: start from the given
spec (or a fresh empty dict), shallow-copy it, then force
`mpi_ncpus = 1` and install the short single-core queue-adapter profile. -/
def set_short_single_core_to_spec (h : PyHeap) (spec : Option Nat) : PyHeap × Nat :=
  let p :=
    match spec with
    | none => h.alloc PyDict.empty
    | some r => (h, r)
  let q := p.1.copyDict p.2
  let h2 := (q.1.setItem q.2 "mpi_ncpus" (PyVal.int 1)).setItem q.2
      "_queueadapter" get_short_single_core_spec
  (h2, q.2)

structure InputFWWorkflowModel where
  fw : FireworkModel
  wf : WorkflowModel
  deriving DecidableEq, Repr

/-- InputFWWorkflow.__init__ (the `task_type` argument only picks the task
wrapper class and is kept fixed at the default here). -/
def InputFWWorkflow.init (h : PyHeap) (abiinput : Nat) (autoparal : Bool)
    (spec : Option Nat) (initialization_info : Option Nat) :
    PyHeap × InputFWWorkflowModel :=
  let p0 := match spec with | none => h.alloc PyDict.empty | some r => (h, r)
  let p1 := match initialization_info with
    | none => p0.1.alloc PyDict.empty
    | some r => (p0.1, r)
  let abitask : FwTaskModel := ⟨FwTaskKind.abi, abiinput, autoparal, [], [], none⟩
  let p2 := p1.1.copyDict p0.2
  let h3 := p2.1.setItem p2.2 "initialization_info" (PyVal.ref p1.2)
  let p4 := if autoparal then set_short_single_core_to_spec h3 (some p2.2) else (h3, p2.2)
  let p5 := mkFirework p4.1 [abitask] p4.2
  (p5.1, ⟨p5.2, ⟨[p5.2], [], PyDict.empty⟩⟩)

structure ScfFWWorkflowModel where
  scf_fw : FireworkModel
  wf : WorkflowModel
  deriving DecidableEq, Repr

/-- ScfFWWorkflow.__init__. -/
def ScfFWWorkflow.init (h : PyHeap) (abiinput : Nat) (autoparal : Bool)
    (spec : Option Nat) (initialization_info : Option Nat) :
    PyHeap × ScfFWWorkflowModel :=
  let p0 := match spec with | none => h.alloc PyDict.empty | some r => (h, r)
  let p1 := match initialization_info with
    | none => p0.1.alloc PyDict.empty
    | some r => (p0.1, r)
  let abitask : FwTaskModel := ⟨FwTaskKind.scf, abiinput, autoparal, [], [], none⟩
  let p2 := p1.1.copyDict p0.2
  let h3 := p2.1.setItem p2.2 "initialization_info" (PyVal.ref p1.2)
  let p4 := if autoparal then set_short_single_core_to_spec h3 (some p2.2) else (h3, p2.2)
  let p5 := mkFirework p4.1 [abitask] p4.2
  (p5.1, ⟨p5.2, ⟨[p5.2], [], PyDict.empty⟩⟩)

structure RelaxFWWorkflowModel where
  ion_fw : FireworkModel
  ioncell_fw : FireworkModel
  wf : WorkflowModel
  deriving DecidableEq, Repr

def relaxWorkflowMetadata : PyDict :=
  ⟨[("workflow_class", PyVal.str "RelaxFWWorkflow"),
    ("workflow_module", PyVal.str "abiflows.fireworks.workflows.abinit_workflows")]⟩

/-- RelaxFWWorkflow.__init__: one shared spec dict, mutated between the two
`Firework` constructions; each Firework snapshots it by a shallow copy. -/
def RelaxFWWorkflow.init (h : PyHeap) (ion_input ioncell_input : Nat)
    (autoparal : Bool) (spec : Option Nat) (initialization_info : Option Nat)
    (target_dilatmx : Option Nat) : PyHeap × RelaxFWWorkflowModel :=
  let p0 := match spec with | none => h.alloc PyDict.empty | some r => (h, r)
  let p1 := match initialization_info with
    | none => p0.1.alloc PyDict.empty
    | some r => (p0.1, r)
  let p2 := p1.1.copyDict p0.2
  let h3 := p2.1.setItem p2.2 "initialization_info" (PyVal.ref p1.2)
  let p4 := if autoparal then set_short_single_core_to_spec h3 (some p2.2) else (h3, p2.2)
  let sidx := if autoparal then "autoparal" else "1"
  let h5 := p4.1.setItem p4.2 "wf_task_index" (PyVal.str ("ion_" ++ sidx))
  let ion_task : FwTaskModel := ⟨FwTaskKind.relax, ion_input, autoparal, [], [], none⟩
  let p6 := mkFirework h5 [ion_task] p4.2
  let h7 := p6.1.setItem p4.2 "wf_task_index" (PyVal.str ("ioncell_" ++ sidx))
  let ioncell_task : FwTaskModel :=
    match target_dilatmx with
    | some t => ⟨FwTaskKind.relaxDilatmx, ioncell_input, autoparal, [], [], some t⟩
    | none => ⟨FwTaskKind.relax, ioncell_input, autoparal, [], [], none⟩
  let p8 := mkFirework h7 [ioncell_task] p4.2
  (p8.1, ⟨p6.2, p8.2, ⟨[p6.2, p8.2], [(0, 1)], relaxWorkflowMetadata⟩⟩)

structure NscfFWWorkflowModel where
  ion_fw : FireworkModel
  ioncell_fw : FireworkModel
  wf : WorkflowModel
  deriving DecidableEq, Repr

/-- NscfFWWorkflow.__init__ as effectively defined: the module defines the
class twice and the second definition (which accepts no
`initialization_info` argument and never writes that key) shadows the
first, so this is the binding in force. -/
def NscfFWWorkflow.init (h : PyHeap) (scf_input nscf_input : Nat)
    (autoparal : Bool) (spec : Option Nat) : PyHeap × NscfFWWorkflowModel :=
  let p0 := match spec with | none => h.alloc PyDict.empty | some r => (h, r)
  let p1 := p0.1.copyDict p0.2
  let p2 := if autoparal then set_short_single_core_to_spec p1.1 (some p1.2) else p1
  let ion_task : FwTaskModel := ⟨FwTaskKind.scf, scf_input, autoparal, [], [], none⟩
  let p3 := mkFirework p2.1 [ion_task] p2.2
  let ioncell_task : FwTaskModel :=
    ⟨FwTaskKind.nscf, nscf_input, autoparal, [(FwTaskKind.scf, "DEN")], [], none⟩
  let p4 := mkFirework p3.1 [ioncell_task] p2.2
  (p4.1, ⟨p3.2, p4.2, ⟨[p3.2, p4.2], [(0, 1)], PyDict.empty⟩⟩)

structure PhononFWWorkflowModel where
  scf_fw : FireworkModel
  ph_generation_fw : FireworkModel
  wf : WorkflowModel
  deriving DecidableEq, Repr

def phononWorkflowMetadata : PyDict :=
  ⟨[("workflow_class", PyVal.str "PhononFWWorkflow"),
    ("workflow_module", PyVal.str "abipy.fworks.fw_workflows")]⟩

/-- PhononFWWorkflow.__init__: the scf firework gets a stage-indexed
`wf_task_index` while the generation firework's index is the fixed literal
`gen_ph`. -/
def PhononFWWorkflow.init (h : PyHeap) (scf_inp phonon_factory : Nat)
    (autoparal : Bool) (spec : Option Nat) (initialization_info : Option Nat) :
    PyHeap × PhononFWWorkflowModel :=
  let p0 := match spec with | none => h.alloc PyDict.empty | some r => (h, r)
  let p1 := match initialization_info with
    | none => p0.1.alloc PyDict.empty
    | some r => (p0.1, r)
  let scf_task : FwTaskModel := ⟨FwTaskKind.scf, scf_inp, autoparal, [], [], none⟩
  let p2 := p1.1.copyDict p0.2
  let h3 := p2.1.setItem p2.2 "initialization_info" (PyVal.ref p1.2)
  let p4 := if autoparal then set_short_single_core_to_spec h3 (some p2.2) else (h3, p2.2)
  let sidx := if autoparal then "autoparal" else "1"
  let h5 := p4.1.setItem p4.2 "wf_task_index" (PyVal.str ("scf_" ++ sidx))
  let p6 := mkFirework h5 [scf_task] p4.2
  let ph_task : FwTaskModel := ⟨FwTaskKind.genPhonon, phonon_factory, autoparal, [], [], none⟩
  let h7 := p6.1.setItem p4.2 "wf_task_index" (PyVal.str "gen_ph")
  let p8 := mkFirework h7 [ph_task] p4.2
  (p8.1, ⟨p6.2, p8.2, ⟨[p6.2, p8.2], [(0, 1)], phononWorkflowMetadata⟩⟩)

structure HybridOneShotFWWorkflowModel where
  scf_fw : FireworkModel
  hybrid_fw : FireworkModel
  wf : WorkflowModel
  deriving DecidableEq, Repr

/-- HybridOneShotFWWorkflow.__init__ (firework names, derived from the
reduced formula, are not modelled). -/
def HybridOneShotFWWorkflow.init (h : PyHeap) (scf_inp hybrid_input : Nat)
    (autoparal : Bool) (spec : Option Nat) (initialization_info : Option Nat) :
    PyHeap × HybridOneShotFWWorkflowModel :=
  let p0 := match spec with | none => h.alloc PyDict.empty | some r => (h, r)
  let p1 := match initialization_info with
    | none => p0.1.alloc PyDict.empty
    | some r => (p0.1, r)
  let scf_task : FwTaskModel := ⟨FwTaskKind.scf, scf_inp, autoparal, [], [], none⟩
  let p2 := p1.1.copyDict p0.2
  let h3 := p2.1.setItem p2.2 "initialization_info" (PyVal.ref p1.2)
  let p4 := if autoparal then set_short_single_core_to_spec h3 (some p2.2) else (h3, p2.2)
  let p5 := mkFirework p4.1 [scf_task] p4.2
  let hybrid_task : FwTaskModel := ⟨FwTaskKind.hybrid, hybrid_input, autoparal, [], ["WFK"], none⟩
  let p6 := mkFirework p5.1 [hybrid_task] p4.2
  (p6.1, ⟨p5.2, p6.2, ⟨[p5.2, p6.2], [(0, 1)], PyDict.empty⟩⟩)

/-- Modelled from the spec: `append_fw_to_wf` lives in
`abiflows.fireworks.utils.fw_utils`, which is not among the sources; per the
spec it inserts the given firework as a new terminal container, wired after
all current terminal containers (those with no successor). -/
def append_fw_to_wf (fw : FireworkModel) (w : WorkflowModel) : WorkflowModel :=
  let n := w.fireworks.length
  let terminals := (List.range n).filter (fun v => !(w.links.any (fun e => e.1 == v)))
  ⟨w.fireworks ++ [fw], w.links ++ terminals.map (fun v => (v, n)), w.metadata⟩

structure PiezoElasticFWWorkflowModel where
  scf_fw : FireworkModel
  ddk_fw : FireworkModel
  rf_fw : FireworkModel
  wf : WorkflowModel
  deriving DecidableEq, Repr

def piezoWorkflowMetadata : PyDict :=
  ⟨[("workflow_class", PyVal.str "PiezoElasticFWWorkflow"),
    ("workflow_module", PyVal.str "abiflows.fireworks.workflows.abinit_workflows")]⟩

/-- PiezoElasticFWWorkflow.add_anaddb_task: a fresh short single-core spec
(built from no caller spec, hence without `initialization_info`), one
AnaDdbTask on the piezo-elastic anaddb input derived from the structure
(opaque token), appended as a new terminal container. -/
def PiezoElasticFWWorkflow.add_anaddb_task (h : PyHeap) (w : WorkflowModel)
    (structureTok : Nat) : PyHeap × WorkflowModel :=
  let (h1, specR) := set_short_single_core_to_spec h none
  let anaddb_task : FwTaskModel := ⟨FwTaskKind.anaddb, structureTok, false, [], [], none⟩
  let (h2, anaddb_fw) := mkFirework h1 [anaddb_task] specR
  (h2, append_fw_to_wf anaddb_fw w)

/-- PiezoElasticFWWorkflow.__init__: a three-container chain scf → ddk →
strain-perturbation sharing one spec, followed by `add_anaddb_task`, which
appends the anaddb container after the terminal one. -/
def PiezoElasticFWWorkflow.init (h : PyHeap) (scf_inp ddk_inp rf_inp : Nat)
    (autoparal : Bool) (spec : Option Nat) (initialization_info : Option Nat) :
    PyHeap × PiezoElasticFWWorkflowModel :=
  let (h0, specR0) := match spec with | none => h.alloc PyDict.empty | some r => (h, r)
  let (h1, infoR) := match initialization_info with
    | none => h0.alloc PyDict.empty
    | some r => (h0, r)
  let scf_task : FwTaskModel := ⟨FwTaskKind.scf, scf_inp, autoparal, [], [], none⟩
  let (h2, specR1) := h1.copyDict specR0
  let h3 := h2.setItem specR1 "initialization_info" (PyVal.ref infoR)
  let (h4, specR) :=
    if autoparal then set_short_single_core_to_spec h3 (some specR1) else (h3, specR1)
  let (h5, scf_fw) := mkFirework h4 [scf_task] specR
  let ddk_task : FwTaskModel :=
    ⟨FwTaskKind.ddk, ddk_inp, autoparal, [(FwTaskKind.scf, "WFK")], [], none⟩
  let (h6, ddk_fw) := mkFirework h5 [ddk_task] specR
  let rf_task : FwTaskModel :=
    ⟨FwTaskKind.strainPert, rf_inp, autoparal,
      [(FwTaskKind.scf, "WFK"), (FwTaskKind.ddk, "DDK")], [], none⟩
  let (h7, rf_fw) := mkFirework h6 [rf_task] specR
  let wf0 : WorkflowModel := ⟨[scf_fw, ddk_fw, rf_fw], [(0, 1), (1, 2)], piezoWorkflowMetadata⟩
  let (h8, wfF) := PiezoElasticFWWorkflow.add_anaddb_task h7 wf0 scf_inp
  (h8, ⟨scf_fw, ddk_fw, rf_fw, wfF⟩)

/-- Python exceptions raised (or raisable) by the modelled code paths. -/
inductive PyExc where
  | assertionError
  | runtimeError (msg : String)
  | keyError (k : String)
  | indexError
  | typeError
  | notImplementedError (msg : String)
  deriving DecidableEq, Repr

/-- Python slice `s[:n]`. -/
def pyTake (s : String) (n : Nat) : String := ⟨s.data.take n⟩

/-- Python slice `s[-n:]` (for `n ≥ len(s)` the whole string). -/
def pyTakeLast (s : String) (n : Nat) : String := ⟨s.data.drop (s.data.length - n)⟩

/-- Python `s.split('_')`: split a character list at every underscore; on a
separator `str.split` never yields an empty list. -/
def splitOnUnderscore : List Char → List (List Char)
  | [] => [[]]
  | c :: t =>
    let r := splitOnUnderscore t
    if c = '_' then [] :: r
    else
      match r with
      | [] => [[c]]
      | h :: t' => (c :: h) :: t'

/-- Python `s.split('_')[-1]`: the split is never empty, so `[-1]` never
fails. -/
def lastSegment (s : String) : String := ⟨(splitOnUnderscore s.data).getLastD []⟩

def isSpaceChar (c : Char) : Bool :=
  c = ' ' || c = '\t' || c = '\n' || c = '\r'

/-- Whitespace stripping performed by Python `int` on its string argument. -/
def pyTrimChars (l : List Char) : List Char :=
  ((l.dropWhile isSpaceChar).reverse.dropWhile isSpaceChar).reverse

def digitsVal (l : List Char) : Nat :=
  l.foldl (fun a c => a * 10 + (c.toNat - 48)) 0

def pyDigits? (l : List Char) : Option Nat :=
  if l ≠ [] ∧ l.all Char.isDigit then some (digitsVal l) else none

/-- Python `int(s)` on the strings arising here: surrounding whitespace is
stripped, an optional sign precedes a nonempty run of ASCII digits; anything
else raises ValueError (modelled as `none`).  (Python additionally accepts
underscore digit separators and non-ASCII digits, which cannot occur in the
underscore-split segments this module parses.) -/
def pyInt? (s : String) : Option Int :=
  match pyTrimChars s.data with
  | '-' :: rest => (pyDigits? rest).map (fun n => -(n : Int))
  | '+' :: rest => (pyDigits? rest).map (fun n => (n : Int))
  | l => (pyDigits? l).map (fun n => (n : Int))

structure LaunchModel where
  launch_dir : String
  runtime_secs : Rat
  deriving DecidableEq, Repr

structure ExecFW where
  spec : PyDict
  archived_launches : List LaunchModel
  launches : List LaunchModel
  tasks : List Nat
  deriving DecidableEq, Repr

structure ExecWF where
  id_fw : List (Int × ExecFW)
  metadata : PyDict
  deriving DecidableEq, Repr

/-- Python `d[k]` on a dict: KeyError when absent. -/
def getItemE (d : PyDict) (k : String) : Except PyExc PyVal :=
  match d.lookup k with
  | none => Except.error (PyExc.keyError k)
  | some v => Except.ok v

/-- Python `assert p`. -/
def assertPy (p : Prop) [Decidable p] : Except PyExc Unit :=
  if p then Except.ok () else Except.error PyExc.assertionError

/-- One iteration of the selection loop of
RelaxFWWorkflow.get_final_structure_and_history: the accumulator is the pair
`(ioncell, final_fw_id)`, initially `(-1, None)`.  Slicing a non-string
`wf_task_index` value would raise TypeError. -/
def selectBody (acc : Int × Option Int) (item : Int × ExecFW) :
    Except PyExc (Int × Option Int) :=
  match item.2.spec.lookup "wf_task_index" with
  | none => Except.ok acc
  | some (PyVal.str s) =>
      if pyTake s 8 = "ioncell_" then
        match pyInt? (lastSegment s) with
        | none => Except.ok acc
        | some v => if acc.1 < v then Except.ok (v, some item.1) else Except.ok acc
      else Except.ok acc
  | some _ => Except.error PyExc.typeError

/-- The stage-index suffix a container contributes to the max-scan: its
`wf_task_index` must hold a string with first eight characters `ioncell_`
whose last underscore-separated segment parses as an integer. -/
def ioncellSuffix? (fw : ExecFW) : Option Int :=
  match fw.spec.lookup "wf_task_index" with
  | some (PyVal.str s) =>
      if pyTake s 8 = "ioncell_" then pyInt? (lastSegment s) else none
  | _ => none

/-- Exception-free restatement of one selection step (used to characterise
the loop). -/
def scanStep (acc : Int × Option Int) (item : Int × ExecFW) : Int × Option Int :=
  match ioncellSuffix? item.2 with
  | some v => if acc.1 < v then (v, some item.1) else acc
  | none => acc

def scanList (l : List (Int × ExecFW)) (acc : Int × Option Int) : Int × Option Int :=
  l.foldl scanStep acc

/-- The value stored under `wf_task_index`, when present, is a string (true
of every spec this module builds). -/
def indexValOk (fw : ExecFW) : Bool :=
  match fw.spec.lookup "wf_task_index" with
  | none => true
  | some (PyVal.str _) => true
  | some _ => false

/-- Python `wf.id_fw[i]`. -/
def lookupFw (l : List (Int × ExecFW)) (i : Int) : Option ExecFW :=
  (l.find? (fun p => p.1 == i)).map (fun p => p.2)

/-- RelaxFWWorkflow.get_final_structure_and_history.  The two external
extraction calls — `tasks[-1].get_final_structure()` after
`set_workdir(last_launch.launch_dir)`, and `loadfn(launch_dir/history.json)`
— are abstracted as oracles mapping the final task and the launch directory
to opaque result tokens. -/
def get_final_structure_and_history (getStructure : Nat → String → Nat)
    (loadHistory : String → Nat) (wf : ExecWF) : Except PyExc (Nat × Nat) := do
  let c ← getItemE wf.metadata "workflow_class"
  assertPy (c = PyVal.str "RelaxFWWorkflow")
  let m ← getItemE wf.metadata "workflow_module"
  assertPy (m = PyVal.str "abiflows.fireworks.workflows.abinit_workflows")
  let res ← wf.id_fw.foldlM selectBody (-1, none)
  match res.2 with
  | none => throw (PyExc.runtimeError "Final strucure not found ...")
  | some fid =>
    match lookupFw wf.id_fw fid with
    | none => throw (PyExc.keyError "final_fw_id")
    | some myfw =>
      match (myfw.archived_launches ++ myfw.launches).getLast? with
      | none => throw PyExc.indexError
      | some last_launch =>
        match myfw.tasks.getLast? with
        | none => throw PyExc.indexError
        | some t =>
          pure (getStructure t last_launch.launch_dir, loadHistory last_launch.launch_dir)

/-- One iteration of the accumulation loop of RelaxFWWorkflow.get_runtime_secs. -/
def runtimeBody (acc : Rat) (item : Int × ExecFW) : Except PyExc Rat :=
  match item.2.spec.lookup "wf_task_index" with
  | none => Except.ok acc
  | some (PyVal.str s) =>
    if pyTakeLast s 9 = "autoparal" then
      match item.2.launches.getLast? with
      | none => Except.error PyExc.indexError
      | some l => Except.ok (acc + l.runtime_secs)
    else if pyTake s 4 = "ion_" then
      match item.2.launches.getLast? with
      | none => Except.error PyExc.indexError
      | some l =>
        match item.2.spec.lookup "mpi_ncpus" with
        | none => Except.error (PyExc.keyError "mpi_ncpus")
        | some (PyVal.int n) => Except.ok (acc + l.runtime_secs * (n : Rat))
        | some _ => Except.error PyExc.typeError
    else if pyTake s 8 = "ioncell_" then
      match item.2.launches.getLast? with
      | none => Except.error PyExc.indexError
      | some l =>
        match item.2.spec.lookup "mpi_ncpus" with
        | none => Except.error (PyExc.keyError "mpi_ncpus")
        | some (PyVal.int n) => Except.ok (acc + l.runtime_secs * (n : Rat))
        | some _ => Except.error PyExc.typeError
    else Except.ok acc
  | some _ => Except.error PyExc.typeError

/-- RelaxFWWorkflow.get_runtime_secs. -/
def get_runtime_secs (wf : ExecWF) : Except PyExc Rat := do
  let c ← getItemE wf.metadata "workflow_class"
  assertPy (c = PyVal.str "RelaxFWWorkflow")
  let m ← getItemE wf.metadata "workflow_module"
  assertPy (m = PyVal.str "abiflows.fireworks.workflows.abinit_workflows")
  wf.id_fw.foldlM runtimeBody 0

/-- Metadata pair expected by both RelaxFWWorkflow retrieval classmethods. -/
def metadataOkRelax (m : PyDict) : Bool :=
  (m.lookup "workflow_class" == some (PyVal.str "RelaxFWWorkflow")) &&
    (m.lookup "workflow_module" ==
      some (PyVal.str "abiflows.fireworks.workflows.abinit_workflows"))

/-- A caller-supplied input decorator: a Python callable applied to a
calculation-input object (opaque, modelled as a `Nat` token).  Calling the
decorator on an object in state `x` leaves that object in state `eff x` (its
in-place effect) and evaluates to the value `ret x` (which may or may not be
the same object). -/
structure DecoratorModel where
  eff : Nat → Nat
  ret : Nat → Nat

/-- ScfFWWorkflow.from_factory applies decorators with
`for d in decorators: d(abiinput)`: each call's return value is discarded and
only the in-place effect on `abiinput` carries over. -/
def scfFromFactoryDecoration (inp : Nat) (ds : List DecoratorModel) : Nat :=
  ds.foldl (fun x d => d.eff x) inp

/-- RelaxFWWorkflow.from_factory applies decorators with
`for d in decorators: ion_input = d(ion_input)`: the name is rebound to each
call's return value. -/
def relaxFromFactoryDecoration (inp : Nat) (ds : List DecoratorModel) : Nat :=
  ds.foldl (fun x d => d.ret x) inp

/-- Modelled from the spec's words for comparison: decorators applied by
straight functional composition in list order, each decorator's return value
being the argument to the next. -/
def specComposedDecoration (inp : Nat) : List DecoratorModel → Nat
  | [] => inp
  | d :: rest => specComposedDecoration (d.ret inp) rest

/-- Composition of the in-place effects only, in list order. -/
def chainedMutation (inp : Nat) : List DecoratorModel → Nat
  | [] => inp
  | d :: rest => chainedMutation (d.eff inp) rest

/-- A structure object as consumed by add_metadata: `len(structure)`,
`composition.elements` symbols and `composition.reduced_formula`. -/
structure CrystalStructureModel where
  nsites : Nat
  elements : List String
  reduced_formula : String
  deriving DecidableEq, Repr

/-- AbstractFWWorkflow.add_metadata: build a metadata dict starting from
`wf_type`, add the structure summary when a structure is given, overlay the
caller's additional metadata, then overlay the result onto the workflow's
metadata dict. -/
def add_metadata (wf_type : String) (structureArg : Option CrystalStructureModel)
    (additional_metadata : PyDict) (wfMetadata : PyDict) : PyDict :=
  let metadata : PyDict := ⟨[("wf_type", PyVal.str wf_type)]⟩
  let metadata :=
    match structureArg with
    | some st =>
        ((metadata.insert "nsites" (PyVal.int st.nsites)).insert
            "elements" (PyVal.strList st.elements)).insert
          "reduced_formula" (PyVal.str st.reduced_formula)
    | none => metadata
  let metadata := metadata.updateAll additional_metadata
  wfMetadata.updateAll metadata

/-- Evaluation of the expression `NotImplemented("...")`: `NotImplemented` is
the built-in sentinel object, not an exception class, and is not callable, so
evaluating the call raises TypeError. -/
def notImplementedCall (_msg : String) : Except PyExc PyVal :=
  Except.error PyExc.typeError

/-- PiezoElasticFWWorkflow.from_factory executes
`raise NotImplemented('from factory method not yet implemented for
piezoelasticworkflow')`; the operand's evaluation already raises, and even if
a value were produced, raising a non-exception would itself raise TypeError
(second branch). -/
def PiezoElasticFWWorkflow.from_factory : Except PyExc WorkflowModel :=
  match notImplementedCall
      "from factory method not yet implemented for piezoelasticworkflow" with
  | Except.error e => Except.error e
  | Except.ok _ => Except.error PyExc.typeError

/-- C3 counterexample input: one container indexed `ioncell_-5`, whose suffix
parses to the integer −5. -/
def c3NegWf : ExecWF :=
  { id_fw := [(7, { spec := ⟨[("wf_task_index", PyVal.str "ioncell_-5")]⟩,
                    archived_launches := [], launches := [⟨"run1", 10⟩], tasks := [1] })],
    metadata := relaxWorkflowMetadata }

/-- C3 witness input: three containers — suffixes 2 and 7, plus one whose
suffix `x` does not parse. -/
def c3MaxWf : ExecWF :=
  { id_fw := [(5, { spec := ⟨[("wf_task_index", PyVal.str "ioncell_2")]⟩,
                    archived_launches := [⟨"a0", 1⟩], launches := [⟨"d2", 3⟩], tasks := [4] }),
              (6, { spec := ⟨[("wf_task_index", PyVal.str "ioncell_7")]⟩,
                    archived_launches := [], launches := [⟨"dir7", 2⟩], tasks := [9] }),
              (8, { spec := ⟨[("wf_task_index", PyVal.str "ioncell_x")]⟩,
                    archived_launches := [], launches := [⟨"dx", 2⟩], tasks := [3] })],
    metadata := relaxWorkflowMetadata }

/-- C4 witness input: one container with an unparseable `ioncell_x` suffix,
one with a foreign (`ion_1`) marker, one with no marker at all. -/
def c4SkipWf : ExecWF :=
  { id_fw := [(1, { spec := ⟨[("wf_task_index", PyVal.str "ioncell_x")]⟩,
                    archived_launches := [], launches := [⟨"dx", 2⟩], tasks := [3] }),
              (2, { spec := ⟨[("wf_task_index", PyVal.str "ion_1")]⟩,
                    archived_launches := [], launches := [⟨"dy", 4⟩], tasks := [5] }),
              (3, { spec := ⟨[("other", PyVal.int 0)]⟩,
                    archived_launches := [], launches := [], tasks := [] })],
    metadata := relaxWorkflowMetadata }

/-- Integer read out of an optional dict value (0 when absent or non-int;
only used under hypotheses that make the value a present integer). -/
def intValOf : Option PyVal → Int
  | some (PyVal.int n) => n
  | _ => 0

/-- Per-container accounting stated by the spec: an autoparal-tagged
container contributes its last launch's runtime alone; an `ion_`/`ioncell_`
production container contributes its last launch's runtime times its
`mpi_ncpus`; anything else contributes nothing. -/
def accountedRuntime (item : Int × ExecFW) : Rat :=
  match item.2.spec.lookup "wf_task_index" with
  | some (PyVal.str s) =>
    if pyTakeLast s 9 = "autoparal" then
      (item.2.launches.getLastD ⟨"", 0⟩).runtime_secs
    else if pyTake s 4 = "ion_" ∨ pyTake s 8 = "ioncell_" then
      (item.2.launches.getLastD ⟨"", 0⟩).runtime_secs *
        ((intValOf (item.2.spec.lookup "mpi_ncpus") : Int) : Rat)
    else 0
  | _ => 0

/-- Side conditions making one loop iteration of get_runtime_secs safe: a
string (or absent) stage marker, a recorded launch for accounted containers,
and an integer `mpi_ncpus` for production containers. -/
def branchOkB (fw : ExecFW) : Bool :=
  match fw.spec.lookup "wf_task_index" with
  | none => true
  | some (PyVal.str s) =>
    if pyTakeLast s 9 = "autoparal" then !fw.launches.isEmpty
    else if pyTake s 4 = "ion_" ∨ pyTake s 8 = "ioncell_" then
      !fw.launches.isEmpty &&
        (match fw.spec.lookup "mpi_ncpus" with
         | some (PyVal.int _) => true
         | _ => false)
    else true
  | some _ => false

/-- C5 witness input: one autoparal container with runtime 10 and one
production container with runtime 20 and `mpi_ncpus` 4. -/
def c5ExampleWf : ExecWF :=
  { id_fw := [(1, { spec := ⟨[("wf_task_index", PyVal.str "ioncell_autoparal")]⟩,
                    archived_launches := [], launches := [⟨"d1", 10⟩], tasks := [0] }),
              (2, { spec := ⟨[("wf_task_index", PyVal.str "ioncell_1"),
                              ("mpi_ncpus", PyVal.int 4)]⟩,
                    archived_launches := [], launches := [⟨"d2", 20⟩], tasks := [0] })],
    metadata := relaxWorkflowMetadata }

/-- A container whose stage marker ends in the autoparal sentinel and which
has a recorded launch (no constraint at all on its marker's stage-name part
or on `mpi_ncpus`). -/
def autoparalTaggedB (fw : ExecFW) : Bool :=
  match fw.spec.lookup "wf_task_index" with
  | some (PyVal.str s) => (pyTakeLast s 9 == "autoparal") && !fw.launches.isEmpty
  | _ => false

/-- C10 witness input: two autoparal dry-run containers whose markers also
match the `ion_`/`ioncell_` production prefixes and which even carry
`mpi_ncpus` values (7 and 3). -/
def c10ExampleWf : ExecWF :=
  { id_fw := [(1, { spec := ⟨[("wf_task_index", PyVal.str "ion_autoparal"),
                              ("mpi_ncpus", PyVal.int 7)]⟩,
                    archived_launches := [], launches := [⟨"d1", 5⟩], tasks := [0] }),
              (2, { spec := ⟨[("wf_task_index", PyVal.str "ioncell_autoparal"),
                              ("mpi_ncpus", PyVal.int 3)]⟩,
                    archived_launches := [], launches := [⟨"d2", 2⟩], tasks := [0] })],
    metadata := relaxWorkflowMetadata }

/-! ## Lemmas and claim theorems -/

theorem lookupEntries_insertEntries (l : List (String × PyVal)) (k k' : String) (v : PyVal) :
    lookupEntries (insertEntries l k' v) k = if k' = k then some v else lookupEntries l k := by
  induction l with
  | nil =>
    by_cases h : k' = k <;> simp [insertEntries, lookupEntries, h]
  | cons p t ih =>
    obtain ⟨k₀, v₀⟩ := p
    by_cases h0 : k₀ = k'
    · subst h0
      by_cases h : k₀ = k <;> simp [insertEntries, lookupEntries, h]
    · by_cases h : k' = k
      · subst h
        simp [insertEntries, lookupEntries, h0, ih]
      · simp only [insertEntries, if_neg h0, lookupEntries]
        by_cases h1 : k₀ = k <;> simp [h1, ih, h]

/-- Key lemma for reading a dict after an assignment. -/
theorem PyDict.lookup_insert (d : PyDict) (k k' : String) (v : PyVal) :
    (d.insert k' v).lookup k = if k' = k then some v else d.lookup k :=
  lookupEntries_insertEntries d.entries k k' v

theorem PyDict.lookup_insert_self (d : PyDict) (k : String) (v : PyVal) :
    (d.insert k v).lookup k = some v := by
  simp [PyDict.lookup_insert]

theorem PyDict.lookup_insert_of_ne (d : PyDict) {k k' : String} (h : k' ≠ k) (v : PyVal) :
    (d.insert k' v).lookup k = d.lookup k := by
  simp [PyDict.lookup_insert, h]

theorem listGetD_listSetAt_ne (l : List PyDict) (r r' : Nat) (d : PyDict) (h : r' ≠ r) :
    listGetD (listSetAt l r' d) r = listGetD l r := by
  induction l generalizing r r' with
  | nil => simp [listSetAt]
  | cons x t ih =>
    cases r' with
    | zero =>
      cases r with
      | zero => exact absurd rfl h
      | succ n => simp [listSetAt, listGetD]
    | succ m =>
      cases r with
      | zero => simp [listSetAt, listGetD]
      | succ n =>
        simp only [listSetAt, listGetD]
        exact ih n m (fun hc => h (by rw [hc]))

/-- Writing through one reference never changes the dict behind another. -/
theorem PyHeap.get_setItem_ne (h : PyHeap) {r r' : Nat} (hne : r' ≠ r)
    (k : String) (v : PyVal) : (h.setItem r' k v).get r = h.get r :=
  listGetD_listSetAt_ne h.store r r' _ hne

theorem selectBody_eq_scanStep (acc : Int × Option Int) (item : Int × ExecFW)
    (h : indexValOk item.2 = true) :
    selectBody acc item = Except.ok (scanStep acc item) := by
  unfold indexValOk at h
  unfold selectBody scanStep ioncellSuffix?
  cases hl : item.2.spec.lookup "wf_task_index" with
  | none => simp
  | some v =>
    cases v with
    | str s =>
      by_cases hp : pyTake s 8 = "ioncell_"
      · simp only [hp, if_pos]
        cases hi : pyInt? (lastSegment s) with
        | none => simp
        | some w => by_cases hlt : acc.1 < w <;> simp [hlt]
      · simp [hp]
    | int n => rw [hl] at h; simp at h
    | ref r => rw [hl] at h; simp at h
    | strList l => rw [hl] at h; simp at h
    | qadapter => rw [hl] at h; simp at h

theorem foldlM_selectBody_ok :
    ∀ (l : List (Int × ExecFW)) (acc : Int × Option Int),
      (∀ it ∈ l, indexValOk it.2 = true) →
      l.foldlM (m := Except PyExc) selectBody acc = Except.ok (scanList l acc)
  | [], acc, _ => rfl
  | it :: t, acc, h => by
    rw [List.foldlM_cons, selectBody_eq_scanStep acc it (h it (List.mem_cons_self it t))]
    show t.foldlM (m := Except PyExc) selectBody (scanStep acc it) = _
    rw [foldlM_selectBody_ok t (scanStep acc it) (fun x hx => h x (List.mem_cons_of_mem it hx))]
    rfl

theorem scanStep_fst_le (acc : Int × Option Int) (item : Int × ExecFW) :
    acc.1 ≤ (scanStep acc item).1 := by
  unfold scanStep
  cases ioncellSuffix? item.2 with
  | none => exact le_refl _
  | some v =>
    by_cases hlt : acc.1 < v
    · simpa [hlt] using le_of_lt hlt
    · simp [hlt]

theorem scanList_fst_le (l : List (Int × ExecFW)) (acc : Int × Option Int) :
    acc.1 ≤ (scanList l acc).1 := by
  induction l generalizing acc with
  | nil => exact le_refl _
  | cons x t ih => exact le_trans (scanStep_fst_le acc x) (ih (scanStep acc x))

theorem scanList_suffix_le (l : List (Int × ExecFW)) (acc : Int × Option Int) :
    ∀ it ∈ l, ∀ v : Int, ioncellSuffix? it.2 = some v → v ≤ (scanList l acc).1 := by
  induction l generalizing acc with
  | nil => intro it h; exact absurd h (List.not_mem_nil it)
  | cons x t ih =>
    intro it hmem v hv
    rcases List.mem_cons.mp hmem with heq | hmem'
    · subst heq
      refine le_trans ?_ (scanList_fst_le t (scanStep acc it))
      unfold scanStep
      rw [hv]
      by_cases hlt : acc.1 < v
      · simp [hlt]
      · simpa [hlt] using le_of_not_lt hlt
    · exact ih (scanStep acc x) it hmem' v hv

theorem scanList_origin (l : List (Int × ExecFW)) (acc : Int × Option Int) :
    scanList l acc = acc ∨
      ∃ it ∈ l, ioncellSuffix? it.2 = some (scanList l acc).1 ∧
        (scanList l acc).2 = some it.1 := by
  induction l generalizing acc with
  | nil => exact Or.inl rfl
  | cons x t ih =>
    have hx : scanList (x :: t) acc = scanList t (scanStep acc x) := rfl
    rcases ih (scanStep acc x) with h | ⟨it, hmem, hs, hid⟩
    · cases hsx : ioncellSuffix? x.2 with
      | none =>
        have hstep : scanStep acc x = acc := by unfold scanStep; rw [hsx]
        exact Or.inl (by rw [hx, h, hstep])
      | some v =>
        by_cases hlt : acc.1 < v
        · have hstep : scanStep acc x = (v, some x.1) := by
            unfold scanStep; rw [hsx]; simp [hlt]
          refine Or.inr ⟨x, List.mem_cons_self x t, ?_, ?_⟩
          · rw [hx, h, hstep]; exact hsx
          · rw [hx, h, hstep]
        · have hstep : scanStep acc x = acc := by
            unfold scanStep; rw [hsx]; simp [hlt]
          exact Or.inl (by rw [hx, h, hstep])
    · exact Or.inr ⟨it, List.mem_cons_of_mem x hmem, by rw [hx]; exact hs, by rw [hx]; exact hid⟩

theorem scanList_of_none (l : List (Int × ExecFW)) (acc : Int × Option Int)
    (h : ∀ it ∈ l, ioncellSuffix? it.2 = none) : scanList l acc = acc := by
  induction l generalizing acc with
  | nil => rfl
  | cons x t ih =>
    have hx : scanStep acc x = acc := by
      unfold scanStep; rw [h x (List.mem_cons_self x t)]
    show scanList t (scanStep acc x) = acc
    rw [hx]
    exact ih acc (fun it hit => h it (List.mem_cons_of_mem x hit))

theorem scanList_filter (l : List (Int × ExecFW)) (acc : Int × Option Int) :
    scanList l acc = scanList (l.filter (fun it => (ioncellSuffix? it.2).isSome)) acc := by
  induction l generalizing acc with
  | nil => rfl
  | cons x t ih =>
    cases hsx : ioncellSuffix? x.2 with
    | none =>
      have hstep : scanStep acc x = acc := by unfold scanStep; rw [hsx]
      have h1 : scanList (x :: t) acc = scanList t acc := by
        show scanList t (scanStep acc x) = _
        rw [hstep]
      rw [h1, List.filter_cons_of_neg (by simp [hsx])]
      exact ih acc
    | some v =>
      rw [List.filter_cons_of_pos (by simp [hsx])]
      have h1 : scanList (x :: t) acc = scanList t (scanStep acc x) := rfl
      have h2 : scanList (x :: List.filter (fun it => (ioncellSuffix? it.2).isSome) t) acc
          = scanList (List.filter (fun it => (ioncellSuffix? it.2).isSome) t) (scanStep acc x) := rfl
      rw [h1, h2]
      exact ih (scanStep acc x)

theorem lookupFw_of_nodup (l : List (Int × ExecFW))
    (hN : (l.map Prod.fst).Nodup) (it : Int × ExecFW) (hmem : it ∈ l) :
    lookupFw l it.1 = some it.2 := by
  induction l with
  | nil => exact absurd hmem (List.not_mem_nil it)
  | cons x t ih =>
    rcases List.mem_cons.mp hmem with heq | hmem'
    · subst heq
      unfold lookupFw
      rw [List.find?_cons_of_pos _ (by simp)]
      rfl
    · have hne : x.1 ≠ it.1 := by
        intro hcontra
        have : it.1 ∈ t.map Prod.fst := List.mem_map_of_mem Prod.fst hmem'
        rw [← hcontra] at this
        exact (List.nodup_cons.mp hN).1 this
      unfold lookupFw
      rw [List.find?_cons_of_neg _ (by simp [hne])]
      exact ih (List.nodup_cons.mp hN).2 hmem'



/-! Structural evaluations of each builder on a two-cell heap (caller spec at
reference 0, initialization info at reference 1), one per autoparal value.
All later facts about the builders rewrite with these, so the expensive
unfolding happens once per builder and branch. -/

theorem inputInitEqF (s i : PyDict) (a : Nat) :
    InputFWWorkflow.init ⟨[s, i]⟩ a false (some 0) (some 1) =
      (⟨[s, i, (s.insert "initialization_info" (PyVal.ref 1)), (s.insert "initialization_info" (PyVal.ref 1))]⟩,
       ⟨⟨[⟨FwTaskKind.abi, a, false, [], [], none⟩], 3⟩,
        ⟨[⟨[⟨FwTaskKind.abi, a, false, [], [], none⟩], 3⟩], [], ⟨[]⟩⟩⟩) := rfl

theorem inputInitEqT (s i : PyDict) (a : Nat) :
    InputFWWorkflow.init ⟨[s, i]⟩ a true (some 0) (some 1) =
      (⟨[s, i, (s.insert "initialization_info" (PyVal.ref 1)), (((s.insert "initialization_info" (PyVal.ref 1)).insert "mpi_ncpus" (PyVal.int 1)).insert "_queueadapter" PyVal.qadapter), (((s.insert "initialization_info" (PyVal.ref 1)).insert "mpi_ncpus" (PyVal.int 1)).insert "_queueadapter" PyVal.qadapter)]⟩,
       ⟨⟨[⟨FwTaskKind.abi, a, true, [], [], none⟩], 4⟩,
        ⟨[⟨[⟨FwTaskKind.abi, a, true, [], [], none⟩], 4⟩], [], ⟨[]⟩⟩⟩) := rfl

theorem scfInitEqF (s i : PyDict) (a : Nat) :
    ScfFWWorkflow.init ⟨[s, i]⟩ a false (some 0) (some 1) =
      (⟨[s, i, (s.insert "initialization_info" (PyVal.ref 1)), (s.insert "initialization_info" (PyVal.ref 1))]⟩,
       ⟨⟨[⟨FwTaskKind.scf, a, false, [], [], none⟩], 3⟩,
        ⟨[⟨[⟨FwTaskKind.scf, a, false, [], [], none⟩], 3⟩], [], ⟨[]⟩⟩⟩) := rfl

theorem scfInitEqT (s i : PyDict) (a : Nat) :
    ScfFWWorkflow.init ⟨[s, i]⟩ a true (some 0) (some 1) =
      (⟨[s, i, (s.insert "initialization_info" (PyVal.ref 1)), (((s.insert "initialization_info" (PyVal.ref 1)).insert "mpi_ncpus" (PyVal.int 1)).insert "_queueadapter" PyVal.qadapter), (((s.insert "initialization_info" (PyVal.ref 1)).insert "mpi_ncpus" (PyVal.int 1)).insert "_queueadapter" PyVal.qadapter)]⟩,
       ⟨⟨[⟨FwTaskKind.scf, a, true, [], [], none⟩], 4⟩,
        ⟨[⟨[⟨FwTaskKind.scf, a, true, [], [], none⟩], 4⟩], [], ⟨[]⟩⟩⟩) := rfl

theorem relaxInitEqF (s i : PyDict) (a b : Nat) (tgt : Option Nat) :
    RelaxFWWorkflow.init ⟨[s, i]⟩ a b false (some 0) (some 1) tgt =
      (⟨[s, i, (((s.insert "initialization_info" (PyVal.ref 1)).insert "wf_task_index" (PyVal.str "ion_1")).insert "wf_task_index" (PyVal.str "ioncell_1")), ((s.insert "initialization_info" (PyVal.ref 1)).insert "wf_task_index" (PyVal.str "ion_1")), (((s.insert "initialization_info" (PyVal.ref 1)).insert "wf_task_index" (PyVal.str "ion_1")).insert "wf_task_index" (PyVal.str "ioncell_1"))]⟩,
       ⟨⟨[⟨FwTaskKind.relax, a, false, [], [], none⟩], 3⟩,
        ⟨[(match tgt with
          | some t => (⟨FwTaskKind.relaxDilatmx, b, false, [], [], some t⟩ : FwTaskModel)
          | none => ⟨FwTaskKind.relax, b, false, [], [], none⟩)], 4⟩,
        ⟨[⟨[⟨FwTaskKind.relax, a, false, [], [], none⟩], 3⟩,
          ⟨[(match tgt with
          | some t => (⟨FwTaskKind.relaxDilatmx, b, false, [], [], some t⟩ : FwTaskModel)
          | none => ⟨FwTaskKind.relax, b, false, [], [], none⟩)], 4⟩],
         [(0, 1)], relaxWorkflowMetadata⟩⟩) := by
  cases tgt <;> rfl

theorem relaxInitEqT (s i : PyDict) (a b : Nat) (tgt : Option Nat) :
    RelaxFWWorkflow.init ⟨[s, i]⟩ a b true (some 0) (some 1) tgt =
      (⟨[s, i, (s.insert "initialization_info" (PyVal.ref 1)), (((((s.insert "initialization_info" (PyVal.ref 1)).insert "mpi_ncpus" (PyVal.int 1)).insert "_queueadapter" PyVal.qadapter).insert "wf_task_index" (PyVal.str "ion_autoparal")).insert "wf_task_index" (PyVal.str "ioncell_autoparal")), ((((s.insert "initialization_info" (PyVal.ref 1)).insert "mpi_ncpus" (PyVal.int 1)).insert "_queueadapter" PyVal.qadapter).insert "wf_task_index" (PyVal.str "ion_autoparal")), (((((s.insert "initialization_info" (PyVal.ref 1)).insert "mpi_ncpus" (PyVal.int 1)).insert "_queueadapter" PyVal.qadapter).insert "wf_task_index" (PyVal.str "ion_autoparal")).insert "wf_task_index" (PyVal.str "ioncell_autoparal"))]⟩,
       ⟨⟨[⟨FwTaskKind.relax, a, true, [], [], none⟩], 4⟩,
        ⟨[(match tgt with
          | some t => (⟨FwTaskKind.relaxDilatmx, b, true, [], [], some t⟩ : FwTaskModel)
          | none => ⟨FwTaskKind.relax, b, true, [], [], none⟩)], 5⟩,
        ⟨[⟨[⟨FwTaskKind.relax, a, true, [], [], none⟩], 4⟩,
          ⟨[(match tgt with
          | some t => (⟨FwTaskKind.relaxDilatmx, b, true, [], [], some t⟩ : FwTaskModel)
          | none => ⟨FwTaskKind.relax, b, true, [], [], none⟩)], 5⟩],
         [(0, 1)], relaxWorkflowMetadata⟩⟩) := by
  cases tgt <;> rfl

theorem nscfInitEqF (s i : PyDict) (a b : Nat) :
    NscfFWWorkflow.init ⟨[s, i]⟩ a b false (some 0) =
      (⟨[s, i, s, s, s]⟩,
       ⟨⟨[⟨FwTaskKind.scf, a, false, [], [], none⟩], 3⟩,
        ⟨[⟨FwTaskKind.nscf, b, false, [(FwTaskKind.scf, "DEN")], [], none⟩], 4⟩,
        ⟨[⟨[⟨FwTaskKind.scf, a, false, [], [], none⟩], 3⟩,
          ⟨[⟨FwTaskKind.nscf, b, false, [(FwTaskKind.scf, "DEN")], [], none⟩], 4⟩],
         [(0, 1)], ⟨[]⟩⟩⟩) := rfl

theorem nscfInitEqT (s i : PyDict) (a b : Nat) :
    NscfFWWorkflow.init ⟨[s, i]⟩ a b true (some 0) =
      (⟨[s, i, s, ((s.insert "mpi_ncpus" (PyVal.int 1)).insert "_queueadapter" PyVal.qadapter), ((s.insert "mpi_ncpus" (PyVal.int 1)).insert "_queueadapter" PyVal.qadapter), ((s.insert "mpi_ncpus" (PyVal.int 1)).insert "_queueadapter" PyVal.qadapter)]⟩,
       ⟨⟨[⟨FwTaskKind.scf, a, true, [], [], none⟩], 4⟩,
        ⟨[⟨FwTaskKind.nscf, b, true, [(FwTaskKind.scf, "DEN")], [], none⟩], 5⟩,
        ⟨[⟨[⟨FwTaskKind.scf, a, true, [], [], none⟩], 4⟩,
          ⟨[⟨FwTaskKind.nscf, b, true, [(FwTaskKind.scf, "DEN")], [], none⟩], 5⟩],
         [(0, 1)], ⟨[]⟩⟩⟩) := rfl

theorem hybridInitEqF (s i : PyDict) (a b : Nat) :
    HybridOneShotFWWorkflow.init ⟨[s, i]⟩ a b false (some 0) (some 1) =
      (⟨[s, i, (s.insert "initialization_info" (PyVal.ref 1)), (s.insert "initialization_info" (PyVal.ref 1)), (s.insert "initialization_info" (PyVal.ref 1))]⟩,
       ⟨⟨[⟨FwTaskKind.scf, a, false, [], [], none⟩], 3⟩,
        ⟨[⟨FwTaskKind.hybrid, b, false, [], ["WFK"], none⟩], 4⟩,
        ⟨[⟨[⟨FwTaskKind.scf, a, false, [], [], none⟩], 3⟩,
          ⟨[⟨FwTaskKind.hybrid, b, false, [], ["WFK"], none⟩], 4⟩],
         [(0, 1)], ⟨[]⟩⟩⟩) := rfl

theorem hybridInitEqT (s i : PyDict) (a b : Nat) :
    HybridOneShotFWWorkflow.init ⟨[s, i]⟩ a b true (some 0) (some 1) =
      (⟨[s, i, (s.insert "initialization_info" (PyVal.ref 1)), (((s.insert "initialization_info" (PyVal.ref 1)).insert "mpi_ncpus" (PyVal.int 1)).insert "_queueadapter" PyVal.qadapter), (((s.insert "initialization_info" (PyVal.ref 1)).insert "mpi_ncpus" (PyVal.int 1)).insert "_queueadapter" PyVal.qadapter), (((s.insert "initialization_info" (PyVal.ref 1)).insert "mpi_ncpus" (PyVal.int 1)).insert "_queueadapter" PyVal.qadapter)]⟩,
       ⟨⟨[⟨FwTaskKind.scf, a, true, [], [], none⟩], 4⟩,
        ⟨[⟨FwTaskKind.hybrid, b, true, [], ["WFK"], none⟩], 5⟩,
        ⟨[⟨[⟨FwTaskKind.scf, a, true, [], [], none⟩], 4⟩,
          ⟨[⟨FwTaskKind.hybrid, b, true, [], ["WFK"], none⟩], 5⟩],
         [(0, 1)], ⟨[]⟩⟩⟩) := rfl

theorem phononInitEqF (s i : PyDict) (a b : Nat) :
    PhononFWWorkflow.init ⟨[s, i]⟩ a b false (some 0) (some 1) =
      (⟨[s, i, (((s.insert "initialization_info" (PyVal.ref 1)).insert "wf_task_index" (PyVal.str "scf_1")).insert "wf_task_index" (PyVal.str "gen_ph")), ((s.insert "initialization_info" (PyVal.ref 1)).insert "wf_task_index" (PyVal.str "scf_1")), (((s.insert "initialization_info" (PyVal.ref 1)).insert "wf_task_index" (PyVal.str "scf_1")).insert "wf_task_index" (PyVal.str "gen_ph"))]⟩,
       ⟨⟨[⟨FwTaskKind.scf, a, false, [], [], none⟩], 3⟩,
        ⟨[⟨FwTaskKind.genPhonon, b, false, [], [], none⟩], 4⟩,
        ⟨[⟨[⟨FwTaskKind.scf, a, false, [], [], none⟩], 3⟩,
          ⟨[⟨FwTaskKind.genPhonon, b, false, [], [], none⟩], 4⟩],
         [(0, 1)], phononWorkflowMetadata⟩⟩) := rfl

theorem phononInitEqT (s i : PyDict) (a b : Nat) :
    PhononFWWorkflow.init ⟨[s, i]⟩ a b true (some 0) (some 1) =
      (⟨[s, i, (s.insert "initialization_info" (PyVal.ref 1)), (((((s.insert "initialization_info" (PyVal.ref 1)).insert "mpi_ncpus" (PyVal.int 1)).insert "_queueadapter" PyVal.qadapter).insert "wf_task_index" (PyVal.str "scf_autoparal")).insert "wf_task_index" (PyVal.str "gen_ph")), ((((s.insert "initialization_info" (PyVal.ref 1)).insert "mpi_ncpus" (PyVal.int 1)).insert "_queueadapter" PyVal.qadapter).insert "wf_task_index" (PyVal.str "scf_autoparal")), (((((s.insert "initialization_info" (PyVal.ref 1)).insert "mpi_ncpus" (PyVal.int 1)).insert "_queueadapter" PyVal.qadapter).insert "wf_task_index" (PyVal.str "scf_autoparal")).insert "wf_task_index" (PyVal.str "gen_ph"))]⟩,
       ⟨⟨[⟨FwTaskKind.scf, a, true, [], [], none⟩], 4⟩,
        ⟨[⟨FwTaskKind.genPhonon, b, true, [], [], none⟩], 5⟩,
        ⟨[⟨[⟨FwTaskKind.scf, a, true, [], [], none⟩], 4⟩,
          ⟨[⟨FwTaskKind.genPhonon, b, true, [], [], none⟩], 5⟩],
         [(0, 1)], phononWorkflowMetadata⟩⟩) := rfl

theorem piezoInitEqF (s i : PyDict) (a b c : Nat) :
    PiezoElasticFWWorkflow.init ⟨[s, i]⟩ a b c false (some 0) (some 1) =
      (⟨[s, i, (s.insert "initialization_info" (PyVal.ref 1)), (s.insert "initialization_info" (PyVal.ref 1)), (s.insert "initialization_info" (PyVal.ref 1)), (s.insert "initialization_info" (PyVal.ref 1)), ⟨[]⟩, (⟨[("mpi_ncpus", PyVal.int 1), ("_queueadapter", PyVal.qadapter)]⟩ : PyDict), (⟨[("mpi_ncpus", PyVal.int 1), ("_queueadapter", PyVal.qadapter)]⟩ : PyDict)]⟩,
       ⟨⟨[⟨FwTaskKind.scf, a, false, [], [], none⟩], 3⟩,
        ⟨[⟨FwTaskKind.ddk, b, false, [(FwTaskKind.scf, "WFK")], [], none⟩], 4⟩,
        ⟨[⟨FwTaskKind.strainPert, c, false, [(FwTaskKind.scf, "WFK"), (FwTaskKind.ddk, "DDK")], [], none⟩], 5⟩,
        ⟨[⟨[⟨FwTaskKind.scf, a, false, [], [], none⟩], 3⟩,
          ⟨[⟨FwTaskKind.ddk, b, false, [(FwTaskKind.scf, "WFK")], [], none⟩], 4⟩,
          ⟨[⟨FwTaskKind.strainPert, c, false, [(FwTaskKind.scf, "WFK"), (FwTaskKind.ddk, "DDK")], [], none⟩], 5⟩,
          ⟨[⟨FwTaskKind.anaddb, a, false, [], [], none⟩], 8⟩],
         [(0, 1), (1, 2), (2, 3)], piezoWorkflowMetadata⟩⟩) := by
  simp [PiezoElasticFWWorkflow.init, PiezoElasticFWWorkflow.add_anaddb_task,
    append_fw_to_wf, set_short_single_core_to_spec, mkFirework, PyHeap.copyDict,
    PyHeap.alloc, PyHeap.setItem, PyHeap.writeRef, PyHeap.get, listGetD, listSetAt,
    PyDict.insert, insertEntries, PyDict.empty, get_short_single_core_spec,
    List.range_succ]

theorem piezoInitEqT (s i : PyDict) (a b c : Nat) :
    PiezoElasticFWWorkflow.init ⟨[s, i]⟩ a b c true (some 0) (some 1) =
      (⟨[s, i, (s.insert "initialization_info" (PyVal.ref 1)), (((s.insert "initialization_info" (PyVal.ref 1)).insert "mpi_ncpus" (PyVal.int 1)).insert "_queueadapter" PyVal.qadapter), (((s.insert "initialization_info" (PyVal.ref 1)).insert "mpi_ncpus" (PyVal.int 1)).insert "_queueadapter" PyVal.qadapter), (((s.insert "initialization_info" (PyVal.ref 1)).insert "mpi_ncpus" (PyVal.int 1)).insert "_queueadapter" PyVal.qadapter), (((s.insert "initialization_info" (PyVal.ref 1)).insert "mpi_ncpus" (PyVal.int 1)).insert "_queueadapter" PyVal.qadapter), ⟨[]⟩, (⟨[("mpi_ncpus", PyVal.int 1), ("_queueadapter", PyVal.qadapter)]⟩ : PyDict), (⟨[("mpi_ncpus", PyVal.int 1), ("_queueadapter", PyVal.qadapter)]⟩ : PyDict)]⟩,
       ⟨⟨[⟨FwTaskKind.scf, a, true, [], [], none⟩], 4⟩,
        ⟨[⟨FwTaskKind.ddk, b, true, [(FwTaskKind.scf, "WFK")], [], none⟩], 5⟩,
        ⟨[⟨FwTaskKind.strainPert, c, true, [(FwTaskKind.scf, "WFK"), (FwTaskKind.ddk, "DDK")], [], none⟩], 6⟩,
        ⟨[⟨[⟨FwTaskKind.scf, a, true, [], [], none⟩], 4⟩,
          ⟨[⟨FwTaskKind.ddk, b, true, [(FwTaskKind.scf, "WFK")], [], none⟩], 5⟩,
          ⟨[⟨FwTaskKind.strainPert, c, true, [(FwTaskKind.scf, "WFK"), (FwTaskKind.ddk, "DDK")], [], none⟩], 6⟩,
          ⟨[⟨FwTaskKind.anaddb, a, false, [], [], none⟩], 9⟩],
         [(0, 1), (1, 2), (2, 3)], piezoWorkflowMetadata⟩⟩) := by
  simp [PiezoElasticFWWorkflow.init, PiezoElasticFWWorkflow.add_anaddb_task,
    append_fw_to_wf, set_short_single_core_to_spec, mkFirework, PyHeap.copyDict,
    PyHeap.alloc, PyHeap.setItem, PyHeap.writeRef, PyHeap.get, listGetD, listSetAt,
    PyDict.insert, insertEntries, PyDict.empty, get_short_single_core_spec,
    List.range_succ]

/-- Facts about InputFWWorkflow used by the claim C1 theorem. -/
theorem inputInitFacts (s i : PyDict) (ap : Bool) (a : Nat) :
    (let r := InputFWWorkflow.init ⟨[s, i]⟩ a ap (some 0) (some 1)
     ((r.1.get r.2.fw.specRef).lookup "initialization_info" = some (PyVal.ref 1) ∧
       r.1.get 1 = i ∧ r.2.wf.acyclicB = true)) := by
  cases ap
  · simp only [inputInitEqF]
    exact ⟨by simp [PyHeap.get, listGetD, PyDict.lookup_insert], rfl, rfl⟩
  · simp only [inputInitEqT]
    exact ⟨by simp [PyHeap.get, listGetD, PyDict.lookup_insert], rfl, rfl⟩

/-- Facts about ScfFWWorkflow used by the claim C1 theorem. -/
theorem scfInitFacts (s i : PyDict) (ap : Bool) (a : Nat) :
    (let r := ScfFWWorkflow.init ⟨[s, i]⟩ a ap (some 0) (some 1)
     ((r.1.get r.2.scf_fw.specRef).lookup "initialization_info" = some (PyVal.ref 1) ∧
       r.1.get 1 = i ∧ r.2.wf.acyclicB = true)) := by
  cases ap
  · simp only [scfInitEqF]
    exact ⟨by simp [PyHeap.get, listGetD, PyDict.lookup_insert], rfl, rfl⟩
  · simp only [scfInitEqT]
    exact ⟨by simp [PyHeap.get, listGetD, PyDict.lookup_insert], rfl, rfl⟩

/-- Facts about RelaxFWWorkflow used by the claim C1 theorem. -/
theorem relaxInitFacts (s i : PyDict) (ap : Bool) (a b : Nat) (tgt : Option Nat) :
    (let r := RelaxFWWorkflow.init ⟨[s, i]⟩ a b ap (some 0) (some 1) tgt
     ((r.1.get r.2.ion_fw.specRef).lookup "initialization_info" = some (PyVal.ref 1) ∧
       (r.1.get r.2.ioncell_fw.specRef).lookup "initialization_info" = some (PyVal.ref 1) ∧
       r.1.get 1 = i ∧ r.2.wf.acyclicB = true)) := by
  cases ap
  · simp only [relaxInitEqF]
    refine ⟨?_, ?_, rfl, rfl⟩ <;> simp [PyHeap.get, listGetD, PyDict.lookup_insert]
  · simp only [relaxInitEqT]
    refine ⟨?_, ?_, rfl, rfl⟩ <;> simp [PyHeap.get, listGetD, PyDict.lookup_insert]

/-- RelaxFWWorkflow built with no spec and no initialization info: a fresh
empty info mapping is allocated and stored. -/
theorem relaxInitDefaultFacts (ap : Bool) (a b : Nat) (tgt : Option Nat) :
    (let r := RelaxFWWorkflow.init ⟨[]⟩ a b ap none none tgt
     ((r.1.get r.2.ion_fw.specRef).lookup "initialization_info" = some (PyVal.ref 1) ∧
       r.1.get 1 = PyDict.empty)) := by
  cases ap <;> cases tgt <;> exact ⟨rfl, rfl⟩

/-- Facts about PhononFWWorkflow used by the claim C1 theorem. -/
theorem phononInitFacts (s i : PyDict) (ap : Bool) (a b : Nat) :
    (let r := PhononFWWorkflow.init ⟨[s, i]⟩ a b ap (some 0) (some 1)
     ((r.1.get r.2.scf_fw.specRef).lookup "initialization_info" = some (PyVal.ref 1) ∧
       (r.1.get r.2.ph_generation_fw.specRef).lookup "initialization_info" =
        some (PyVal.ref 1) ∧
       r.1.get 1 = i ∧ r.2.wf.acyclicB = true)) := by
  cases ap
  · simp only [phononInitEqF]
    refine ⟨?_, ?_, rfl, rfl⟩ <;> simp [PyHeap.get, listGetD, PyDict.lookup_insert]
  · simp only [phononInitEqT]
    refine ⟨?_, ?_, rfl, rfl⟩ <;> simp [PyHeap.get, listGetD, PyDict.lookup_insert]

/-- Facts about HybridOneShotFWWorkflow used by the claim C1 theorem. -/
theorem hybridInitFacts (s i : PyDict) (ap : Bool) (a b : Nat) :
    (let r := HybridOneShotFWWorkflow.init ⟨[s, i]⟩ a b ap (some 0) (some 1)
     ((r.1.get r.2.scf_fw.specRef).lookup "initialization_info" = some (PyVal.ref 1) ∧
       (r.1.get r.2.hybrid_fw.specRef).lookup "initialization_info" = some (PyVal.ref 1) ∧
       r.1.get 1 = i ∧ r.2.wf.acyclicB = true)) := by
  cases ap
  · simp only [hybridInitEqF]
    refine ⟨?_, ?_, rfl, rfl⟩ <;> simp [PyHeap.get, listGetD, PyDict.lookup_insert]
  · simp only [hybridInitEqT]
    refine ⟨?_, ?_, rfl, rfl⟩ <;> simp [PyHeap.get, listGetD, PyDict.lookup_insert]

/-- Facts about PiezoElasticFWWorkflow used by the claim C1 theorem: the
three chained containers store the supplied initialization info, the
appended anaddb container (position 3) does not, the info dict is unchanged
and the four-container graph is acyclic. -/
theorem piezoInitFacts (s i : PyDict) (a b c : Nat) (ap : Bool) :
    (let r := PiezoElasticFWWorkflow.init ⟨[s, i]⟩ a b c ap (some 0) (some 1)
     ((r.1.get r.2.scf_fw.specRef).lookup "initialization_info" = some (PyVal.ref 1) ∧
       (r.1.get r.2.ddk_fw.specRef).lookup "initialization_info" = some (PyVal.ref 1) ∧
       (r.1.get r.2.rf_fw.specRef).lookup "initialization_info" = some (PyVal.ref 1) ∧
       (r.1.get (r.2.wf.fireworks.getD 3 ⟨[], 0⟩).specRef).lookup "initialization_info" =
        none ∧
       r.1.get 1 = i ∧ r.2.wf.acyclicB = true)) := by
  cases ap
  · simp only [piezoInitEqF]
    refine ⟨?_, ?_, ?_, rfl, rfl, rfl⟩ <;> simp [PyHeap.get, listGetD, PyDict.lookup_insert]
  · simp only [piezoInitEqT]
    refine ⟨?_, ?_, ?_, rfl, rfl, rfl⟩ <;> simp [PyHeap.get, listGetD, PyDict.lookup_insert]

/-- Facts about the effective NscfFWWorkflow used by the claim C1 theorem. -/
theorem nscfInitFacts (s i : PyDict) (ap : Bool) (a b : Nat) :
    (let r := NscfFWWorkflow.init ⟨[s, i]⟩ a b ap (some 0)
     ((r.1.get r.2.ion_fw.specRef).lookup "initialization_info" =
        s.lookup "initialization_info" ∧
       (r.1.get r.2.ioncell_fw.specRef).lookup "initialization_info" =
        s.lookup "initialization_info" ∧
       r.2.wf.acyclicB = true)) := by
  cases ap
  · simp only [nscfInitEqF]
    exact ⟨rfl, rfl, rfl⟩
  · simp only [nscfInitEqT]
    refine ⟨?_, ?_, rfl⟩ <;> simp [PyHeap.get, listGetD, PyDict.lookup_insert]

/-- C1 counterexample: the `NscfFWWorkflow` class definition in force (the
second one in the module, which shadows the earlier definition) accepts no
`initialization_info` argument and never writes the key; built with an empty
caller spec, both containers' execution specifications lack the key
entirely, refuting the claim as stated for this builder. -/
theorem c1_counterexample :
    (let r := NscfFWWorkflow.init ⟨[PyDict.empty]⟩ 0 1 false (some 0)
     ((r.1.get r.2.ion_fw.specRef).lookup "initialization_info" = none ∧
       (r.1.get r.2.ioncell_fw.specRef).lookup "initialization_info" = none)) :=
  ⟨rfl, rfl⟩

/-- C1 (amended): for every choice of caller spec contents, initialization
info contents and constructor arguments, the produced workflow graph is
acyclic for every builder (for PiezoElasticFWWorkflow including the anaddb
container its constructor appends); and for every builder whose constructor
accepts `initialization_info` (InputFWWorkflow, ScfFWWorkflow,
RelaxFWWorkflow, PhononFWWorkflow, HybridOneShotFWWorkflow,
PiezoElasticFWWorkflow) every container built by the constructor from the
caller's spec stores under `initialization_info` exactly the mapping object
supplied at construction (the freshly allocated empty mapping when none is
supplied, shown for RelaxFWWorkflow).  Two exceptions remain: the
NscfFWWorkflow binding in force accepts no `initialization_info` and leaves
the key exactly as in the caller's spec, and the anaddb container
PiezoElasticFWWorkflow appends carries a fresh short single-core spec
without the key. -/
theorem c1_amended_builders (s i : PyDict) (ap : Bool) (a b c : Nat) (tgt : Option Nat) :
    (let r := InputFWWorkflow.init ⟨[s, i]⟩ a ap (some 0) (some 1)
     ((r.1.get r.2.fw.specRef).lookup "initialization_info" = some (PyVal.ref 1) ∧
       r.1.get 1 = i ∧ r.2.wf.acyclicB = true)) ∧
    (let r := ScfFWWorkflow.init ⟨[s, i]⟩ a ap (some 0) (some 1)
     ((r.1.get r.2.scf_fw.specRef).lookup "initialization_info" = some (PyVal.ref 1) ∧
       r.1.get 1 = i ∧ r.2.wf.acyclicB = true)) ∧
    (let r := RelaxFWWorkflow.init ⟨[s, i]⟩ a b ap (some 0) (some 1) tgt
     ((r.1.get r.2.ion_fw.specRef).lookup "initialization_info" = some (PyVal.ref 1) ∧
       (r.1.get r.2.ioncell_fw.specRef).lookup "initialization_info" = some (PyVal.ref 1) ∧
       r.1.get 1 = i ∧ r.2.wf.acyclicB = true)) ∧
    (let r := RelaxFWWorkflow.init ⟨[]⟩ a b ap none none tgt
     ((r.1.get r.2.ion_fw.specRef).lookup "initialization_info" = some (PyVal.ref 1) ∧
       r.1.get 1 = PyDict.empty)) ∧
    (let r := PhononFWWorkflow.init ⟨[s, i]⟩ a b ap (some 0) (some 1)
     ((r.1.get r.2.scf_fw.specRef).lookup "initialization_info" = some (PyVal.ref 1) ∧
       (r.1.get r.2.ph_generation_fw.specRef).lookup "initialization_info" =
        some (PyVal.ref 1) ∧
       r.1.get 1 = i ∧ r.2.wf.acyclicB = true)) ∧
    (let r := HybridOneShotFWWorkflow.init ⟨[s, i]⟩ a b ap (some 0) (some 1)
     ((r.1.get r.2.scf_fw.specRef).lookup "initialization_info" = some (PyVal.ref 1) ∧
       (r.1.get r.2.hybrid_fw.specRef).lookup "initialization_info" = some (PyVal.ref 1) ∧
       r.1.get 1 = i ∧ r.2.wf.acyclicB = true)) ∧
    (let r := PiezoElasticFWWorkflow.init ⟨[s, i]⟩ a b c ap (some 0) (some 1)
     ((r.1.get r.2.scf_fw.specRef).lookup "initialization_info" = some (PyVal.ref 1) ∧
       (r.1.get r.2.ddk_fw.specRef).lookup "initialization_info" = some (PyVal.ref 1) ∧
       (r.1.get r.2.rf_fw.specRef).lookup "initialization_info" = some (PyVal.ref 1) ∧
       (r.1.get (r.2.wf.fireworks.getD 3 ⟨[], 0⟩).specRef).lookup "initialization_info" =
        none ∧
       r.1.get 1 = i ∧ r.2.wf.acyclicB = true)) ∧
    (let r := NscfFWWorkflow.init ⟨[s, i]⟩ a b ap (some 0)
     ((r.1.get r.2.ion_fw.specRef).lookup "initialization_info" =
        s.lookup "initialization_info" ∧
       (r.1.get r.2.ioncell_fw.specRef).lookup "initialization_info" =
        s.lookup "initialization_info" ∧
       r.2.wf.acyclicB = true)) :=
  ⟨inputInitFacts s i ap a, scfInitFacts s i ap a, relaxInitFacts s i ap a b tgt,
   relaxInitDefaultFacts ap a b tgt, phononInitFacts s i ap a b,
   hybridInitFacts s i ap a b, piezoInitFacts s i a b c ap, nscfInitFacts s i ap a b⟩


/-- Autoparal facts about InputFWWorkflow used by the claim C2 theorem. -/
theorem inputAutoparalFacts (s i : PyDict) (a : Nat) :
    (let r := InputFWWorkflow.init ⟨[s, i]⟩ a true (some 0) (some 1)
     ((r.1.get r.2.fw.specRef).lookup "mpi_ncpus" = some (PyVal.int 1) ∧
       (r.1.get r.2.fw.specRef).lookup "_queueadapter" = some get_short_single_core_spec ∧
       (r.1.get r.2.fw.specRef).lookup "wf_task_index" = s.lookup "wf_task_index")) := by
  simp only [inputInitEqT]
  refine ⟨?_, ?_, ?_⟩ <;>
    simp [PyHeap.get, listGetD, PyDict.lookup_insert, get_short_single_core_spec]

/-- Autoparal facts about ScfFWWorkflow used by the claim C2 theorem. -/
theorem scfAutoparalFacts (s i : PyDict) (a : Nat) :
    (let r := ScfFWWorkflow.init ⟨[s, i]⟩ a true (some 0) (some 1)
     ((r.1.get r.2.scf_fw.specRef).lookup "mpi_ncpus" = some (PyVal.int 1) ∧
       (r.1.get r.2.scf_fw.specRef).lookup "_queueadapter" =
        some get_short_single_core_spec ∧
       (r.1.get r.2.scf_fw.specRef).lookup "wf_task_index" = s.lookup "wf_task_index")) := by
  simp only [scfInitEqT]
  refine ⟨?_, ?_, ?_⟩ <;>
    simp [PyHeap.get, listGetD, PyDict.lookup_insert, get_short_single_core_spec]

/-- Autoparal facts about RelaxFWWorkflow used by the claim C2 theorem. -/
theorem relaxAutoparalFacts (s i : PyDict) (a b : Nat) (tgt : Option Nat) :
    (let r := RelaxFWWorkflow.init ⟨[s, i]⟩ a b true (some 0) (some 1) tgt
     ((r.1.get r.2.ion_fw.specRef).lookup "mpi_ncpus" = some (PyVal.int 1) ∧
       (r.1.get r.2.ion_fw.specRef).lookup "_queueadapter" =
        some get_short_single_core_spec ∧
       (r.1.get r.2.ion_fw.specRef).lookup "wf_task_index" =
        some (PyVal.str "ion_autoparal") ∧
       (r.1.get r.2.ioncell_fw.specRef).lookup "mpi_ncpus" = some (PyVal.int 1) ∧
       (r.1.get r.2.ioncell_fw.specRef).lookup "_queueadapter" =
        some get_short_single_core_spec ∧
       (r.1.get r.2.ioncell_fw.specRef).lookup "wf_task_index" =
        some (PyVal.str "ioncell_autoparal"))) := by
  simp only [relaxInitEqT]
  refine ⟨?_, ?_, ?_, ?_, ?_, ?_⟩ <;>
    simp [PyHeap.get, listGetD, PyDict.lookup_insert, get_short_single_core_spec]

/-- Autoparal facts about the effective NscfFWWorkflow used by the claim C2
theorem. -/
theorem nscfAutoparalFacts (s i : PyDict) (a b : Nat) :
    (let r := NscfFWWorkflow.init ⟨[s, i]⟩ a b true (some 0)
     ((r.1.get r.2.ion_fw.specRef).lookup "mpi_ncpus" = some (PyVal.int 1) ∧
       (r.1.get r.2.ion_fw.specRef).lookup "_queueadapter" =
        some get_short_single_core_spec ∧
       (r.1.get r.2.ion_fw.specRef).lookup "wf_task_index" = s.lookup "wf_task_index" ∧
       (r.1.get r.2.ioncell_fw.specRef).lookup "mpi_ncpus" = some (PyVal.int 1) ∧
       (r.1.get r.2.ioncell_fw.specRef).lookup "_queueadapter" =
        some get_short_single_core_spec ∧
       (r.1.get r.2.ioncell_fw.specRef).lookup "wf_task_index" =
        s.lookup "wf_task_index")) := by
  simp only [nscfInitEqT]
  refine ⟨?_, ?_, ?_, ?_, ?_, ?_⟩ <;>
    simp [PyHeap.get, listGetD, PyDict.lookup_insert, get_short_single_core_spec]

/-- Autoparal facts about HybridOneShotFWWorkflow used by the claim C2
theorem. -/
theorem hybridAutoparalFacts (s i : PyDict) (a b : Nat) :
    (let r := HybridOneShotFWWorkflow.init ⟨[s, i]⟩ a b true (some 0) (some 1)
     ((r.1.get r.2.scf_fw.specRef).lookup "mpi_ncpus" = some (PyVal.int 1) ∧
       (r.1.get r.2.scf_fw.specRef).lookup "_queueadapter" =
        some get_short_single_core_spec ∧
       (r.1.get r.2.scf_fw.specRef).lookup "wf_task_index" = s.lookup "wf_task_index" ∧
       (r.1.get r.2.hybrid_fw.specRef).lookup "mpi_ncpus" = some (PyVal.int 1) ∧
       (r.1.get r.2.hybrid_fw.specRef).lookup "_queueadapter" =
        some get_short_single_core_spec ∧
       (r.1.get r.2.hybrid_fw.specRef).lookup "wf_task_index" =
        s.lookup "wf_task_index")) := by
  simp only [hybridInitEqT]
  refine ⟨?_, ?_, ?_, ?_, ?_, ?_⟩ <;>
    simp [PyHeap.get, listGetD, PyDict.lookup_insert, get_short_single_core_spec]

/-- Autoparal facts about PhononFWWorkflow used by the claim C2 theorem. -/
theorem phononAutoparalFacts (s i : PyDict) (a b : Nat) :
    (let r := PhononFWWorkflow.init ⟨[s, i]⟩ a b true (some 0) (some 1)
     ((r.1.get r.2.scf_fw.specRef).lookup "mpi_ncpus" = some (PyVal.int 1) ∧
       (r.1.get r.2.scf_fw.specRef).lookup "_queueadapter" =
        some get_short_single_core_spec ∧
       (r.1.get r.2.scf_fw.specRef).lookup "wf_task_index" =
        some (PyVal.str "scf_autoparal") ∧
       (r.1.get r.2.ph_generation_fw.specRef).lookup "mpi_ncpus" = some (PyVal.int 1) ∧
       (r.1.get r.2.ph_generation_fw.specRef).lookup "_queueadapter" =
        some get_short_single_core_spec ∧
       (r.1.get r.2.ph_generation_fw.specRef).lookup "wf_task_index" =
        some (PyVal.str "gen_ph"))) := by
  simp only [phononInitEqT]
  refine ⟨?_, ?_, ?_, ?_, ?_, ?_⟩ <;>
    simp [PyHeap.get, listGetD, PyDict.lookup_insert, get_short_single_core_spec]

/-- Autoparal facts about PiezoElasticFWWorkflow used by the claim C2
theorem: the three chained containers and the appended anaddb container all
receive the single-core profile (the anaddb container always does, its spec
being built by the same helper from no caller spec); none of them carries a
stage marker. -/
theorem piezoAutoparalFacts (s i : PyDict) (a b c : Nat) :
    (let r := PiezoElasticFWWorkflow.init ⟨[s, i]⟩ a b c true (some 0) (some 1)
     ((r.1.get r.2.scf_fw.specRef).lookup "mpi_ncpus" = some (PyVal.int 1) ∧
       (r.1.get r.2.scf_fw.specRef).lookup "_queueadapter" =
        some get_short_single_core_spec ∧
       (r.1.get r.2.scf_fw.specRef).lookup "wf_task_index" = s.lookup "wf_task_index" ∧
       (r.1.get r.2.ddk_fw.specRef).lookup "mpi_ncpus" = some (PyVal.int 1) ∧
       (r.1.get r.2.rf_fw.specRef).lookup "mpi_ncpus" = some (PyVal.int 1) ∧
       (r.1.get (r.2.wf.fireworks.getD 3 ⟨[], 0⟩).specRef).lookup "mpi_ncpus" =
        some (PyVal.int 1) ∧
       (r.1.get (r.2.wf.fireworks.getD 3 ⟨[], 0⟩).specRef).lookup "_queueadapter" =
        some get_short_single_core_spec ∧
       (r.1.get (r.2.wf.fireworks.getD 3 ⟨[], 0⟩).specRef).lookup "wf_task_index" =
        none)) := by
  simp only [piezoInitEqT]
  refine ⟨?_, ?_, ?_, ?_, ?_, rfl, rfl, rfl⟩ <;>
    simp [PyHeap.get, listGetD, PyDict.lookup_insert, get_short_single_core_spec]

/-- C2 counterexample: PhononFWWorkflow built with `autoparal=True` gives its
phonon-generation container the fixed stage marker `gen_ph`, which does not
encode the autoparal sentinel (and parses to no integer either), refuting
"every container's stage marker encodes the literal autoparal sentinel". -/
theorem c2_counterexample :
    (let r := PhononFWWorkflow.init ⟨[PyDict.empty, PyDict.empty]⟩ 0 1 true (some 0) (some 1)
     ((r.1.get r.2.ph_generation_fw.specRef).lookup "wf_task_index" =
        some (PyVal.str "gen_ph") ∧
       pyTakeLast "gen_ph" 9 ≠ "autoparal" ∧
       pyInt? (lastSegment "gen_ph") = none)) :=
  ⟨rfl, by decide, by decide⟩

/-- C2 (amended): for every builder invoked with `autoparal=True`, every
produced container's execution specification has `mpi_ncpus` fixed to 1 and
carries the short single-core queue-adapter profile (for
PiezoElasticFWWorkflow including the appended anaddb container, whose spec
the same helper builds afresh).  Every container whose stage marker takes a
numeric index in a non-autoparal build (`ion_`/`ioncell_` in
RelaxFWWorkflow, `scf_` in PhononFWWorkflow) carries the autoparal sentinel
in place of the numeric index; PhononFWWorkflow's generation container keeps
its fixed `gen_ph` marker, and the remaining builders write no stage marker
at all (the key stays exactly as in the caller's spec, absent in the anaddb
container's fresh spec). -/
theorem c2_amended_autoparal (s i : PyDict) (a b c : Nat) (tgt : Option Nat) :
    (let r := InputFWWorkflow.init ⟨[s, i]⟩ a true (some 0) (some 1)
     ((r.1.get r.2.fw.specRef).lookup "mpi_ncpus" = some (PyVal.int 1) ∧
       (r.1.get r.2.fw.specRef).lookup "_queueadapter" = some get_short_single_core_spec ∧
       (r.1.get r.2.fw.specRef).lookup "wf_task_index" = s.lookup "wf_task_index")) ∧
    (let r := ScfFWWorkflow.init ⟨[s, i]⟩ a true (some 0) (some 1)
     ((r.1.get r.2.scf_fw.specRef).lookup "mpi_ncpus" = some (PyVal.int 1) ∧
       (r.1.get r.2.scf_fw.specRef).lookup "_queueadapter" =
        some get_short_single_core_spec ∧
       (r.1.get r.2.scf_fw.specRef).lookup "wf_task_index" = s.lookup "wf_task_index")) ∧
    (let r := RelaxFWWorkflow.init ⟨[s, i]⟩ a b true (some 0) (some 1) tgt
     ((r.1.get r.2.ion_fw.specRef).lookup "mpi_ncpus" = some (PyVal.int 1) ∧
       (r.1.get r.2.ion_fw.specRef).lookup "_queueadapter" =
        some get_short_single_core_spec ∧
       (r.1.get r.2.ion_fw.specRef).lookup "wf_task_index" =
        some (PyVal.str "ion_autoparal") ∧
       (r.1.get r.2.ioncell_fw.specRef).lookup "mpi_ncpus" = some (PyVal.int 1) ∧
       (r.1.get r.2.ioncell_fw.specRef).lookup "_queueadapter" =
        some get_short_single_core_spec ∧
       (r.1.get r.2.ioncell_fw.specRef).lookup "wf_task_index" =
        some (PyVal.str "ioncell_autoparal"))) ∧
    (let r := NscfFWWorkflow.init ⟨[s, i]⟩ a b true (some 0)
     ((r.1.get r.2.ion_fw.specRef).lookup "mpi_ncpus" = some (PyVal.int 1) ∧
       (r.1.get r.2.ion_fw.specRef).lookup "_queueadapter" =
        some get_short_single_core_spec ∧
       (r.1.get r.2.ion_fw.specRef).lookup "wf_task_index" = s.lookup "wf_task_index" ∧
       (r.1.get r.2.ioncell_fw.specRef).lookup "mpi_ncpus" = some (PyVal.int 1) ∧
       (r.1.get r.2.ioncell_fw.specRef).lookup "_queueadapter" =
        some get_short_single_core_spec ∧
       (r.1.get r.2.ioncell_fw.specRef).lookup "wf_task_index" =
        s.lookup "wf_task_index")) ∧
    (let r := HybridOneShotFWWorkflow.init ⟨[s, i]⟩ a b true (some 0) (some 1)
     ((r.1.get r.2.scf_fw.specRef).lookup "mpi_ncpus" = some (PyVal.int 1) ∧
       (r.1.get r.2.scf_fw.specRef).lookup "_queueadapter" =
        some get_short_single_core_spec ∧
       (r.1.get r.2.scf_fw.specRef).lookup "wf_task_index" = s.lookup "wf_task_index" ∧
       (r.1.get r.2.hybrid_fw.specRef).lookup "mpi_ncpus" = some (PyVal.int 1) ∧
       (r.1.get r.2.hybrid_fw.specRef).lookup "_queueadapter" =
        some get_short_single_core_spec ∧
       (r.1.get r.2.hybrid_fw.specRef).lookup "wf_task_index" =
        s.lookup "wf_task_index")) ∧
    (let r := PhononFWWorkflow.init ⟨[s, i]⟩ a b true (some 0) (some 1)
     ((r.1.get r.2.scf_fw.specRef).lookup "mpi_ncpus" = some (PyVal.int 1) ∧
       (r.1.get r.2.scf_fw.specRef).lookup "_queueadapter" =
        some get_short_single_core_spec ∧
       (r.1.get r.2.scf_fw.specRef).lookup "wf_task_index" =
        some (PyVal.str "scf_autoparal") ∧
       (r.1.get r.2.ph_generation_fw.specRef).lookup "mpi_ncpus" = some (PyVal.int 1) ∧
       (r.1.get r.2.ph_generation_fw.specRef).lookup "_queueadapter" =
        some get_short_single_core_spec ∧
       (r.1.get r.2.ph_generation_fw.specRef).lookup "wf_task_index" =
        some (PyVal.str "gen_ph"))) ∧
    (let r := PiezoElasticFWWorkflow.init ⟨[s, i]⟩ a b c true (some 0) (some 1)
     ((r.1.get r.2.scf_fw.specRef).lookup "mpi_ncpus" = some (PyVal.int 1) ∧
       (r.1.get r.2.scf_fw.specRef).lookup "_queueadapter" =
        some get_short_single_core_spec ∧
       (r.1.get r.2.scf_fw.specRef).lookup "wf_task_index" = s.lookup "wf_task_index" ∧
       (r.1.get r.2.ddk_fw.specRef).lookup "mpi_ncpus" = some (PyVal.int 1) ∧
       (r.1.get r.2.rf_fw.specRef).lookup "mpi_ncpus" = some (PyVal.int 1) ∧
       (r.1.get (r.2.wf.fireworks.getD 3 ⟨[], 0⟩).specRef).lookup "mpi_ncpus" =
        some (PyVal.int 1) ∧
       (r.1.get (r.2.wf.fireworks.getD 3 ⟨[], 0⟩).specRef).lookup "_queueadapter" =
        some get_short_single_core_spec ∧
       (r.1.get (r.2.wf.fireworks.getD 3 ⟨[], 0⟩).specRef).lookup "wf_task_index" =
        none)) :=
  ⟨inputAutoparalFacts s i a, scfAutoparalFacts s i a, relaxAutoparalFacts s i a b tgt,
   nscfAutoparalFacts s i a b, hybridAutoparalFacts s i a b, phononAutoparalFacts s i a b,
   piezoAutoparalFacts s i a b c⟩

/-- Facts about RelaxFWWorkflow used by the claim C8 theorem. -/
theorem relaxSiblingFacts (s i : PyDict) (a b : Nat) (ap : Bool) (tgt : Option Nat)
    (k : String) (v : PyVal) :
    (let r := RelaxFWWorkflow.init ⟨[s, i]⟩ a b ap (some 0) (some 1) tgt
     (r.1.get 0 = s ∧
       r.1.get 1 = i ∧
       r.2.ion_fw.specRef ≠ r.2.ioncell_fw.specRef ∧
       (r.1.setItem r.2.ioncell_fw.specRef k v).get r.2.ion_fw.specRef =
        r.1.get r.2.ion_fw.specRef ∧
       (r.1.setItem r.2.ion_fw.specRef k v).get r.2.ioncell_fw.specRef =
        r.1.get r.2.ioncell_fw.specRef)) := by
  cases ap
  · simp only [relaxInitEqF]
    exact ⟨rfl, rfl, by decide, rfl, rfl⟩
  · simp only [relaxInitEqT]
    exact ⟨rfl, rfl, by decide, rfl, rfl⟩

/-- Facts about the effective NscfFWWorkflow used by the claim C8 theorem. -/
theorem nscfSiblingFacts (s i : PyDict) (a b : Nat) (ap : Bool)
    (k : String) (v : PyVal) :
    (let r := NscfFWWorkflow.init ⟨[s, i]⟩ a b ap (some 0)
     (r.1.get 0 = s ∧
       r.2.ion_fw.specRef ≠ r.2.ioncell_fw.specRef ∧
       (r.1.setItem r.2.ioncell_fw.specRef k v).get r.2.ion_fw.specRef =
        r.1.get r.2.ion_fw.specRef ∧
       (r.1.setItem r.2.ion_fw.specRef k v).get r.2.ioncell_fw.specRef =
        r.1.get r.2.ioncell_fw.specRef)) := by
  cases ap
  · simp only [nscfInitEqF]
    exact ⟨rfl, by decide, rfl, rfl⟩
  · simp only [nscfInitEqT]
    exact ⟨rfl, by decide, rfl, rfl⟩

/-- Facts about HybridOneShotFWWorkflow used by the claim C8 theorem. -/
theorem hybridSiblingFacts (s i : PyDict) (a b : Nat) (ap : Bool)
    (k : String) (v : PyVal) :
    (let r := HybridOneShotFWWorkflow.init ⟨[s, i]⟩ a b ap (some 0) (some 1)
     (r.1.get 0 = s ∧
       r.1.get 1 = i ∧
       r.2.scf_fw.specRef ≠ r.2.hybrid_fw.specRef ∧
       (r.1.setItem r.2.hybrid_fw.specRef k v).get r.2.scf_fw.specRef =
        r.1.get r.2.scf_fw.specRef ∧
       (r.1.setItem r.2.scf_fw.specRef k v).get r.2.hybrid_fw.specRef =
        r.1.get r.2.hybrid_fw.specRef)) := by
  cases ap
  · simp only [hybridInitEqF]
    exact ⟨rfl, rfl, by decide, rfl, rfl⟩
  · simp only [hybridInitEqT]
    exact ⟨rfl, rfl, by decide, rfl, rfl⟩

/-- Facts about PhononFWWorkflow used by the claim C8 theorem. -/
theorem phononSiblingFacts (s i : PyDict) (a b : Nat) (ap : Bool)
    (k : String) (v : PyVal) :
    (let r := PhononFWWorkflow.init ⟨[s, i]⟩ a b ap (some 0) (some 1)
     (r.1.get 0 = s ∧
       r.1.get 1 = i ∧
       r.2.scf_fw.specRef ≠ r.2.ph_generation_fw.specRef ∧
       (r.1.setItem r.2.ph_generation_fw.specRef k v).get r.2.scf_fw.specRef =
        r.1.get r.2.scf_fw.specRef ∧
       (r.1.setItem r.2.scf_fw.specRef k v).get r.2.ph_generation_fw.specRef =
        r.1.get r.2.ph_generation_fw.specRef)) := by
  cases ap
  · simp only [phononInitEqF]
    exact ⟨rfl, rfl, by decide, rfl, rfl⟩
  · simp only [phononInitEqT]
    exact ⟨rfl, rfl, by decide, rfl, rfl⟩

/-- Facts about PiezoElasticFWWorkflow used by the claim C8 theorem: the
three chained containers hold pairwise distinct spec objects, each isolated
from assignment into either sibling. -/
theorem piezoSiblingFacts (s i : PyDict) (a b c : Nat) (ap : Bool)
    (k : String) (v : PyVal) :
    (let r := PiezoElasticFWWorkflow.init ⟨[s, i]⟩ a b c ap (some 0) (some 1)
     (r.1.get 0 = s ∧
       r.1.get 1 = i ∧
       r.2.scf_fw.specRef ≠ r.2.ddk_fw.specRef ∧
       r.2.scf_fw.specRef ≠ r.2.rf_fw.specRef ∧
       r.2.ddk_fw.specRef ≠ r.2.rf_fw.specRef ∧
       (r.1.setItem r.2.ddk_fw.specRef k v).get r.2.scf_fw.specRef =
        r.1.get r.2.scf_fw.specRef ∧
       (r.1.setItem r.2.rf_fw.specRef k v).get r.2.scf_fw.specRef =
        r.1.get r.2.scf_fw.specRef ∧
       (r.1.setItem r.2.scf_fw.specRef k v).get r.2.ddk_fw.specRef =
        r.1.get r.2.ddk_fw.specRef ∧
       (r.1.setItem r.2.rf_fw.specRef k v).get r.2.ddk_fw.specRef =
        r.1.get r.2.ddk_fw.specRef ∧
       (r.1.setItem r.2.scf_fw.specRef k v).get r.2.rf_fw.specRef =
        r.1.get r.2.rf_fw.specRef ∧
       (r.1.setItem r.2.ddk_fw.specRef k v).get r.2.rf_fw.specRef =
        r.1.get r.2.rf_fw.specRef)) := by
  cases ap
  · simp only [piezoInitEqF]
    exact ⟨rfl, rfl, by decide, by decide, by decide, rfl, rfl, rfl, rfl, rfl, rfl⟩
  · simp only [piezoInitEqT]
    exact ⟨rfl, rfl, by decide, by decide, by decide, rfl, rfl, rfl, rfl, rfl, rfl⟩

/-- C8: every constructor that builds sibling containers from one caller
specification (RelaxFWWorkflow, NscfFWWorkflow, HybridOneShotFWWorkflow,
PhononFWWorkflow and PiezoElasticFWWorkflow) copies the caller-supplied spec
before any mutation — after construction the caller's dict (and, where
accepted, the supplied initialization-info dict) hold exactly their original
entries — and the sibling containers end up with pairwise distinct spec
objects, so assigning any key into one container's specification after
construction never changes a sibling container's specification. -/
theorem c8_spec_isolation (s i : PyDict) (a b c : Nat) (ap : Bool) (tgt : Option Nat)
    (k : String) (v : PyVal) :
    (let r := RelaxFWWorkflow.init ⟨[s, i]⟩ a b ap (some 0) (some 1) tgt
     (r.1.get 0 = s ∧
       r.1.get 1 = i ∧
       r.2.ion_fw.specRef ≠ r.2.ioncell_fw.specRef ∧
       (r.1.setItem r.2.ioncell_fw.specRef k v).get r.2.ion_fw.specRef =
        r.1.get r.2.ion_fw.specRef ∧
       (r.1.setItem r.2.ion_fw.specRef k v).get r.2.ioncell_fw.specRef =
        r.1.get r.2.ioncell_fw.specRef)) ∧
    (let r := NscfFWWorkflow.init ⟨[s, i]⟩ a b ap (some 0)
     (r.1.get 0 = s ∧
       r.2.ion_fw.specRef ≠ r.2.ioncell_fw.specRef ∧
       (r.1.setItem r.2.ioncell_fw.specRef k v).get r.2.ion_fw.specRef =
        r.1.get r.2.ion_fw.specRef ∧
       (r.1.setItem r.2.ion_fw.specRef k v).get r.2.ioncell_fw.specRef =
        r.1.get r.2.ioncell_fw.specRef)) ∧
    (let r := HybridOneShotFWWorkflow.init ⟨[s, i]⟩ a b ap (some 0) (some 1)
     (r.1.get 0 = s ∧
       r.1.get 1 = i ∧
       r.2.scf_fw.specRef ≠ r.2.hybrid_fw.specRef ∧
       (r.1.setItem r.2.hybrid_fw.specRef k v).get r.2.scf_fw.specRef =
        r.1.get r.2.scf_fw.specRef ∧
       (r.1.setItem r.2.scf_fw.specRef k v).get r.2.hybrid_fw.specRef =
        r.1.get r.2.hybrid_fw.specRef)) ∧
    (let r := PhononFWWorkflow.init ⟨[s, i]⟩ a b ap (some 0) (some 1)
     (r.1.get 0 = s ∧
       r.1.get 1 = i ∧
       r.2.scf_fw.specRef ≠ r.2.ph_generation_fw.specRef ∧
       (r.1.setItem r.2.ph_generation_fw.specRef k v).get r.2.scf_fw.specRef =
        r.1.get r.2.scf_fw.specRef ∧
       (r.1.setItem r.2.scf_fw.specRef k v).get r.2.ph_generation_fw.specRef =
        r.1.get r.2.ph_generation_fw.specRef)) ∧
    (let r := PiezoElasticFWWorkflow.init ⟨[s, i]⟩ a b c ap (some 0) (some 1)
     (r.1.get 0 = s ∧
       r.1.get 1 = i ∧
       r.2.scf_fw.specRef ≠ r.2.ddk_fw.specRef ∧
       r.2.scf_fw.specRef ≠ r.2.rf_fw.specRef ∧
       r.2.ddk_fw.specRef ≠ r.2.rf_fw.specRef ∧
       (r.1.setItem r.2.ddk_fw.specRef k v).get r.2.scf_fw.specRef =
        r.1.get r.2.scf_fw.specRef ∧
       (r.1.setItem r.2.rf_fw.specRef k v).get r.2.scf_fw.specRef =
        r.1.get r.2.scf_fw.specRef ∧
       (r.1.setItem r.2.scf_fw.specRef k v).get r.2.ddk_fw.specRef =
        r.1.get r.2.ddk_fw.specRef ∧
       (r.1.setItem r.2.rf_fw.specRef k v).get r.2.ddk_fw.specRef =
        r.1.get r.2.ddk_fw.specRef ∧
       (r.1.setItem r.2.scf_fw.specRef k v).get r.2.rf_fw.specRef =
        r.1.get r.2.rf_fw.specRef ∧
       (r.1.setItem r.2.ddk_fw.specRef k v).get r.2.rf_fw.specRef =
        r.1.get r.2.rf_fw.specRef)) :=
  ⟨relaxSiblingFacts s i a b ap tgt k v, nscfSiblingFacts s i a b ap k v,
   hybridSiblingFacts s i a b ap k v, phononSiblingFacts s i a b ap k v,
   piezoSiblingFacts s i a b c ap k v⟩

theorem exceptOkBind {α β : Type} (a : α) (f : α → Except PyExc β) :
    (Except.ok a >>= f) = f a := rfl

theorem exceptPureEq {α : Type} (a : α) : (pure a : Except PyExc α) = Except.ok a := rfl

theorem exceptThrowEq {α : Type} (e : PyExc) :
    (throw e : Except PyExc α) = Except.error e := rfl

/-- C3 counterexample: a graph whose only container has `wf_task_index`
beginning with `ioncell_` followed by a string parsing as an integer (−5), so
the claim says it is selected and its result extracted; but the scan's
accumulator starts at −1 and only strictly larger suffixes are kept, so the
code raises the 'not found' error instead of returning a result. -/
theorem c3_counterexample :
    pyTake "ioncell_-5" 8 = "ioncell_" ∧
    pyInt? (lastSegment "ioncell_-5") = some (-5) ∧
    metadataOkRelax c3NegWf.metadata = true ∧
    get_final_structure_and_history (fun _ _ => 0) (fun _ => 0) c3NegWf =
      Except.error (PyExc.runtimeError "Final strucure not found ...") :=
  ⟨by decide, by decide, by decide, rfl⟩

/-- C3 (amended): on a graph with correct RelaxFWWorkflow metadata,
string-valued stage markers, distinct container ids, nonempty launch and
task lists, and at least one container whose `wf_task_index` starts with
`ioncell_` and whose trailing suffix parses as a *nonnegative* integer,
get_final_structure_and_history selects a container whose suffix is maximal
among all integer-parseable `ioncell_` containers and extracts its result
from that container's most recent launch (archived launches followed by
active launches, last one taken).  The original claim fails when every
parseable suffix is negative: the scan's −1 sentinel is never exceeded and
the code raises 'not found'. -/
theorem c3_amended_final_selection (gS : Nat → String → Nat) (lH : String → Nat)
    (wf : ExecWF)
    (hMeta : metadataOkRelax wf.metadata = true)
    (hIdx : ∀ it ∈ wf.id_fw, indexValOk it.2 = true)
    (hNodup : (wf.id_fw.map Prod.fst).Nodup)
    (hLaunch : ∀ it ∈ wf.id_fw,
      (it.2.archived_launches ++ it.2.launches) ≠ [] ∧ it.2.tasks ≠ [])
    (hEx : ∃ it ∈ wf.id_fw, 0 ≤ (ioncellSuffix? it.2).getD (-1)) :
    ∃ it ∈ wf.id_fw, ∃ vmax : Int,
      ioncellSuffix? it.2 = some vmax ∧
      (∀ jt ∈ wf.id_fw, ∀ u : Int, ioncellSuffix? jt.2 = some u → u ≤ vmax) ∧
      get_final_structure_and_history gS lH wf =
        Except.ok
          (gS (it.2.tasks.getLastD 0)
            ((it.2.archived_launches ++ it.2.launches).getLastD ⟨"", 0⟩).launch_dir,
           lH ((it.2.archived_launches ++ it.2.launches).getLastD ⟨"", 0⟩).launch_dir) := by
  obtain ⟨it₀, hmem₀, hge₀⟩ := hEx
  have hs₀ : ∃ v₀ : Int, ioncellSuffix? it₀.2 = some v₀ ∧ 0 ≤ v₀ := by
    cases hcase : ioncellSuffix? it₀.2 with
    | none => rw [hcase] at hge₀; norm_num at hge₀
    | some v => exact ⟨v, rfl, by rw [hcase] at hge₀; simpa using hge₀⟩
  obtain ⟨v₀, hsome₀, hv₀⟩ := hs₀
  have hle₀ : v₀ ≤ (scanList wf.id_fw (-1, none)).1 :=
    scanList_suffix_le wf.id_fw (-1, none) it₀ hmem₀ v₀ hsome₀
  have hgt : (-1 : Int) < (scanList wf.id_fw (-1, none)).1 := by omega
  rcases scanList_origin wf.id_fw (-1, none) with horig | ⟨it, hmem, hs, hid⟩
  · rw [horig] at hgt
    exact absurd hgt (lt_irrefl _)
  · refine ⟨it, hmem, (scanList wf.id_fw (-1, none)).1, hs,
      fun jt hjt u hu => scanList_suffix_le wf.id_fw (-1, none) jt hjt u hu, ?_⟩
    have hmm := hMeta
    simp only [metadataOkRelax, Bool.and_eq_true, beq_iff_eq] at hmm
    obtain ⟨hc, hm⟩ := hmm
    have hfold := foldlM_selectBody_ok wf.id_fw (-1, none) hIdx
    have hlook := lookupFw_of_nodup wf.id_fw hNodup it hmem
    obtain ⟨hl1, hl2⟩ := hLaunch it hmem
    obtain ⟨lx, hlx⟩ := Option.isSome_iff_exists.mp (List.getLast?_isSome.mpr hl1)
    obtain ⟨tx, htx⟩ := Option.isSome_iff_exists.mp (List.getLast?_isSome.mpr hl2)
    have hlxd : (it.2.archived_launches ++ it.2.launches).getLastD ⟨"", 0⟩ = lx := by
      rw [List.getLastD_eq_getLast?, hlx]; rfl
    have htxd : it.2.tasks.getLastD 0 = tx := by
      rw [List.getLastD_eq_getLast?, htx]; rfl
    obtain ⟨v1, v2, hv⟩ : ∃ v1 v2, scanList wf.id_fw (-1, none) = (v1, v2) := ⟨_, _, rfl⟩
    rw [hv] at hid hfold
    simp only at hid
    subst hid
    simp only [get_final_structure_and_history, getItemE, hc, hm, assertPy, hfold,
      exceptOkBind, exceptPureEq, exceptThrowEq, if_pos, hlook, hlx, htx, hlxd, htxd]

/-- C3 witness: the amended theorem applied to a concrete graph. -/
theorem c3_amended_witness :
    ∃ it ∈ c3MaxWf.id_fw, ∃ vmax : Int,
      ioncellSuffix? it.2 = some vmax ∧
      (∀ jt ∈ c3MaxWf.id_fw, ∀ u : Int, ioncellSuffix? jt.2 = some u → u ≤ vmax) ∧
      get_final_structure_and_history (fun t d => t + d.length) (fun d => d.length) c3MaxWf =
        Except.ok
          ((fun (t : Nat) (d : String) => t + d.length) (it.2.tasks.getLastD 0)
            ((it.2.archived_launches ++ it.2.launches).getLastD ⟨"", 0⟩).launch_dir,
           (fun (d : String) => d.length)
            ((it.2.archived_launches ++ it.2.launches).getLastD ⟨"", 0⟩).launch_dir) :=
  c3_amended_final_selection (fun t d => t + d.length) (fun d => d.length) c3MaxWf
    (by decide) (by decide) (by decide) (by decide) (by decide)

/-- C4: on a graph with correct metadata and string-valued stage markers in
which no container's `wf_task_index` both starts with `ioncell_` and has an
integer-parseable suffix, get_final_structure_and_history raises the fatal
'not found' error and returns nothing else; moreover the scan loop itself
never fails on string markers (it returns the pure fold), and containers
whose suffix fails to parse are silently skipped: the scan of the full
container list equals the scan of the list restricted to containers with a
parseable `ioncell_` suffix. -/
theorem c4_not_found_and_skip (gS : Nat → String → Nat) (lH : String → Nat)
    (wf : ExecWF) :
    ((metadataOkRelax wf.metadata = true) →
      (∀ it ∈ wf.id_fw, indexValOk it.2 = true) →
      (∀ it ∈ wf.id_fw, ioncellSuffix? it.2 = none) →
      get_final_structure_and_history gS lH wf =
        Except.error (PyExc.runtimeError "Final strucure not found ...")) ∧
    ((∀ it ∈ wf.id_fw, indexValOk it.2 = true) →
      wf.id_fw.foldlM (m := Except PyExc) selectBody (-1, none) =
        Except.ok (scanList wf.id_fw (-1, none))) ∧
    (∀ acc : Int × Option Int,
      scanList wf.id_fw acc =
        scanList (wf.id_fw.filter (fun jt => (ioncellSuffix? jt.2).isSome)) acc) := by
  refine ⟨?_, ?_, ?_⟩
  · intro hMeta hIdx hNone
    have hmm := hMeta
    simp only [metadataOkRelax, Bool.and_eq_true, beq_iff_eq] at hmm
    obtain ⟨hc, hm⟩ := hmm
    have hfold := foldlM_selectBody_ok wf.id_fw (-1, none) hIdx
    have hres := scanList_of_none wf.id_fw (-1, none) hNone
    simp only [get_final_structure_and_history, getItemE, hc, hm, assertPy, hfold, hres]
    rfl
  · exact foldlM_selectBody_ok wf.id_fw (-1, none)
  · exact scanList_filter wf.id_fw

/-- C4 witness: the theorem applied to the concrete graph above. -/
theorem c4_witness :
    get_final_structure_and_history (fun _ _ => 0) (fun _ => 0) c4SkipWf =
      Except.error (PyExc.runtimeError "Final strucure not found ...") ∧
    c4SkipWf.id_fw.foldlM (m := Except PyExc) selectBody (-1, none) =
      Except.ok (scanList c4SkipWf.id_fw (-1, none)) ∧
    scanList c4SkipWf.id_fw (-1, none) =
      scanList (c4SkipWf.id_fw.filter (fun jt => (ioncellSuffix? jt.2).isSome)) (-1, none) :=
  ⟨(c4_not_found_and_skip (fun _ _ => 0) (fun _ => 0) c4SkipWf).1
      (by decide) (by decide) (by decide),
   (c4_not_found_and_skip (fun _ _ => 0) (fun _ => 0) c4SkipWf).2.1 (by decide),
   (c4_not_found_and_skip (fun _ _ => 0) (fun _ => 0) c4SkipWf).2.2 (-1, none)⟩

theorem runtimeBody_ok_of_branchOk (acc : Rat) (item : Int × ExecFW)
    (h : branchOkB item.2 = true) :
    runtimeBody acc item = Except.ok (acc + accountedRuntime item) := by
  cases hl : item.2.spec.lookup "wf_task_index" with
  | none => simp only [runtimeBody, accountedRuntime, hl]; norm_num
  | some v =>
    cases v with
    | str s =>
      simp only [branchOkB, hl] at h
      by_cases h9 : pyTakeLast s 9 = "autoparal"
      · rw [if_pos h9] at h
        have hne : item.2.launches ≠ [] := by simpa [List.isEmpty_iff] using h
        obtain ⟨lx, hlx⟩ := Option.isSome_iff_exists.mp (List.getLast?_isSome.mpr hne)
        have hlxd : item.2.launches.getLastD ⟨"", 0⟩ = lx := by
          rw [List.getLastD_eq_getLast?, hlx]; rfl
        simp only [runtimeBody, accountedRuntime, hl, if_pos h9, hlx, hlxd]
      · rw [if_neg h9] at h
        by_cases h48 : pyTake s 4 = "ion_" ∨ pyTake s 8 = "ioncell_"
        · rw [if_pos h48] at h
          simp only [Bool.and_eq_true] at h
          have hne : item.2.launches ≠ [] := by simpa [List.isEmpty_iff] using h.1
          obtain ⟨lx, hlx⟩ := Option.isSome_iff_exists.mp (List.getLast?_isSome.mpr hne)
          have hlxd : item.2.launches.getLastD ⟨"", 0⟩ = lx := by
            rw [List.getLastD_eq_getLast?, hlx]; rfl
          have hn : ∃ n : Int, item.2.spec.lookup "mpi_ncpus" = some (PyVal.int n) := by
            cases hm : item.2.spec.lookup "mpi_ncpus" with
            | none => rw [hm] at h; simp at h
            | some w =>
              cases w with
              | int n => exact ⟨n, rfl⟩
              | str x => rw [hm] at h; simp at h
              | ref x => rw [hm] at h; simp at h
              | strList x => rw [hm] at h; simp at h
              | qadapter => rw [hm] at h; simp at h
          obtain ⟨n, hnv⟩ := hn
          rcases h48 with h4 | h8
          · simp only [runtimeBody, accountedRuntime, hl, if_neg h9, if_pos h4,
              if_pos (Or.inl h4 : pyTake s 4 = "ion_" ∨ pyTake s 8 = "ioncell_"),
              hlx, hnv, hlxd, intValOf]
          · by_cases h4 : pyTake s 4 = "ion_"
            · simp only [runtimeBody, accountedRuntime, hl, if_neg h9, if_pos h4,
                if_pos (Or.inl h4 : pyTake s 4 = "ion_" ∨ pyTake s 8 = "ioncell_"),
                hlx, hnv, hlxd, intValOf]
            · simp only [runtimeBody, accountedRuntime, hl, if_neg h9, if_neg h4, if_pos h8,
                if_pos (Or.inr h8 : pyTake s 4 = "ion_" ∨ pyTake s 8 = "ioncell_"),
                hlx, hnv, hlxd, intValOf]
        · push_neg at h48
          have h48' : ¬(pyTake s 4 = "ion_" ∨ pyTake s 8 = "ioncell_") := by
            push_neg; exact h48
          simp only [runtimeBody, accountedRuntime, hl, if_neg h9, if_neg h48.1,
            if_neg h48.2, if_neg h48']
          norm_num
    | int n => simp [branchOkB, hl] at h
    | ref r => simp [branchOkB, hl] at h
    | strList l => simp [branchOkB, hl] at h
    | qadapter => simp [branchOkB, hl] at h

theorem foldlM_runtimeBody_ok :
    ∀ (l : List (Int × ExecFW)) (acc : Rat),
      (∀ it ∈ l, branchOkB it.2 = true) →
      l.foldlM (m := Except PyExc) runtimeBody acc =
        Except.ok (acc + (l.map accountedRuntime).sum)
  | [], acc, _ => by
    simp only [List.foldlM_nil, List.map_nil, List.sum_nil, add_zero]
    rfl
  | it :: t, acc, h => by
    rw [List.foldlM_cons, runtimeBody_ok_of_branchOk acc it (h it (List.mem_cons_self it t)),
      exceptOkBind,
      foldlM_runtimeBody_ok t (acc + accountedRuntime it)
        (fun x hx => h x (List.mem_cons_of_mem it hx))]
    simp [add_assoc]

/-- C5: on a graph with correct RelaxFWWorkflow metadata whose containers
satisfy the per-branch side conditions, get_runtime_secs returns the sum,
over all containers, of the claim's accounting: the last launch's plain
runtime for each autoparal-tagged container, and the last launch's runtime
multiplied by `mpi_ncpus` for each `ion_`/`ioncell_` production container. -/
theorem c5_runtime_core_hours (wf : ExecWF)
    (hMeta : metadataOkRelax wf.metadata = true)
    (hOk : ∀ it ∈ wf.id_fw, branchOkB it.2 = true) :
    get_runtime_secs wf = Except.ok ((wf.id_fw.map accountedRuntime).sum) := by
  have hmm := hMeta
  simp only [metadataOkRelax, Bool.and_eq_true, beq_iff_eq] at hmm
  obtain ⟨hc, hm⟩ := hmm
  have hfold := foldlM_runtimeBody_ok wf.id_fw 0 hOk
  rw [zero_add] at hfold
  simp only [get_runtime_secs, getItemE, hc, hm, assertPy, exceptOkBind, hfold]
  rfl

/-- C5 witness: the claim's worked example, 10 + 20 × 4 = 90. -/
theorem c5_witness : get_runtime_secs c5ExampleWf = Except.ok 90 := by
  rw [c5_runtime_core_hours c5ExampleWf (by decide) (by decide)]
  have hmap : List.map accountedRuntime c5ExampleWf.id_fw = [10, 20 * ((4 : Int) : Rat)] := rfl
  rw [hmap]
  norm_num

theorem runtimeBody_ok_of_autoparal (acc : Rat) (item : Int × ExecFW)
    (h : autoparalTaggedB item.2 = true) :
    runtimeBody acc item =
      Except.ok (acc + (item.2.launches.getLastD ⟨"", 0⟩).runtime_secs) := by
  cases hl : item.2.spec.lookup "wf_task_index" with
  | none => simp [autoparalTaggedB, hl] at h
  | some v =>
    cases v with
    | str s =>
      simp only [autoparalTaggedB, hl, Bool.and_eq_true, beq_iff_eq] at h
      have hne : item.2.launches ≠ [] := by simpa [List.isEmpty_iff] using h.2
      obtain ⟨lx, hlx⟩ := Option.isSome_iff_exists.mp (List.getLast?_isSome.mpr hne)
      have hlxd : item.2.launches.getLastD ⟨"", 0⟩ = lx := by
        rw [List.getLastD_eq_getLast?, hlx]; rfl
      simp only [runtimeBody, hl, if_pos h.1, hlx, hlxd]
    | int n => simp [autoparalTaggedB, hl] at h
    | ref r => simp [autoparalTaggedB, hl] at h
    | strList l => simp [autoparalTaggedB, hl] at h
    | qadapter => simp [autoparalTaggedB, hl] at h

theorem foldlM_runtimeBody_autoparal :
    ∀ (l : List (Int × ExecFW)) (acc : Rat),
      (∀ it ∈ l, autoparalTaggedB it.2 = true) →
      l.foldlM (m := Except PyExc) runtimeBody acc =
        Except.ok
          (acc + (l.map (fun it => (it.2.launches.getLastD ⟨"", 0⟩).runtime_secs)).sum)
  | [], acc, _ => by
    simp only [List.foldlM_nil, List.map_nil, List.sum_nil, add_zero]
    rfl
  | it :: t, acc, h => by
    rw [List.foldlM_cons, runtimeBody_ok_of_autoparal acc it (h it (List.mem_cons_self it t)),
      exceptOkBind,
      foldlM_runtimeBody_autoparal t (acc + (it.2.launches.getLastD ⟨"", 0⟩).runtime_secs)
        (fun x hx => h x (List.mem_cons_of_mem it hx))]
    simp [add_assoc]

/-- C10: in get_runtime_secs the autoparal suffix test runs before the
`ion_`/`ioncell_` prefix tests, so on any correctly tagged graph whose
containers all carry a launch and a marker ending in `autoparal` — in
particular the `ion_autoparal` and `ioncell_autoparal` markers of an
autoparal build, which also match the production prefixes — the total is the
plain sum of each container's last launch runtime: `mpi_ncpus` is never
consulted and no container is counted under more than one branch. -/
theorem c10_autoparal_precedence (wf : ExecWF)
    (hMeta : metadataOkRelax wf.metadata = true)
    (hAll : ∀ it ∈ wf.id_fw, autoparalTaggedB it.2 = true) :
    get_runtime_secs wf =
      Except.ok
        ((wf.id_fw.map (fun it => (it.2.launches.getLastD ⟨"", 0⟩).runtime_secs)).sum) := by
  have hmm := hMeta
  simp only [metadataOkRelax, Bool.and_eq_true, beq_iff_eq] at hmm
  obtain ⟨hc, hm⟩ := hmm
  have hfold := foldlM_runtimeBody_autoparal wf.id_fw 0 hAll
  rw [zero_add] at hfold
  simp only [get_runtime_secs, getItemE, hc, hm, assertPy, exceptOkBind, hfold]
  rfl

/-- C10 witness: runtimes 5 and 2 are added plainly (total 7), not
multiplied by the present `mpi_ncpus` values 7 and 3. -/
theorem c10_witness : get_runtime_secs c10ExampleWf = Except.ok 7 := by
  rw [c10_autoparal_precedence c10ExampleWf (by decide) (by decide)]
  have hmap :
      List.map (fun it => (it.2.launches.getLastD ⟨"", 0⟩).runtime_secs) c10ExampleWf.id_fw =
        [5, 2] := rfl
  rw [hmap]
  norm_num

/-- C6 counterexample: one decorator whose in-place effect is the identity
but whose return value is a fresh object (modelled as `x + 1`).
ScfFWWorkflow.from_factory discards the return value, so the built input is
the original object (0), while the claimed functional composition — and
RelaxFWWorkflow.from_factory — produce 1. -/
theorem c6_counterexample :
    scfFromFactoryDecoration 0 [⟨fun x => x, fun x => x + 1⟩] = 0 ∧
    specComposedDecoration 0 [⟨fun x => x, fun x => x + 1⟩] = 1 ∧
    relaxFromFactoryDecoration 0 [⟨fun x => x, fun x => x + 1⟩] = 1 :=
  ⟨rfl, rfl, rfl⟩

/-- C6 (amended): RelaxFWWorkflow.from_factory applies decorators by straight
functional composition in list order — each call's return value is the
argument of the next, exactly the spec's composition; ScfFWWorkflow's
from_factory instead invokes the decorators in list order on the same input
object and discards their return values, so only the chain of in-place
effects reaches the built workflow. -/
theorem c6_amended_decorators (inp : Nat) (ds : List DecoratorModel) :
    relaxFromFactoryDecoration inp ds = specComposedDecoration inp ds ∧
    scfFromFactoryDecoration inp ds = chainedMutation inp ds := by
  constructor
  · induction ds generalizing inp with
    | nil => rfl
    | cons d t ih => exact ih (d.ret inp)
  · induction ds generalizing inp with
    | nil => rfl
    | cons d t ih => exact ih (d.eff inp)

/-- C7: PiezoElasticFWWorkflow.from_factory never returns a workflow — but
the exception it raises is a TypeError, not a NotImplementedError: the body
is `raise NotImplemented('...')` and `NotImplemented` is the non-callable
built-in sentinel, not the exception class `NotImplementedError`, so
evaluating the operand of the raise already fails.  The claim (and the
code's evident intent) say a 'not implemented' error; the code as written
raises TypeError instead. -/
theorem c7_not_implemented_typeerror :
    PiezoElasticFWWorkflow.from_factory = Except.error PyExc.typeError := rfl

theorem lookupEntries_eq_none_of_not_mem (l : List (String × PyVal)) (k : String)
    (h : k ∉ l.map Prod.fst) : lookupEntries l k = none := by
  induction l with
  | nil => rfl
  | cons p t ih =>
    obtain ⟨k0, v0⟩ := p
    simp only [List.map_cons, List.mem_cons] at h
    push_neg at h
    simp only [lookupEntries, if_neg (fun hc : k0 = k => h.1 hc.symm)]
    exact ih h.2

theorem mem_keys_insertEntries (l : List (String × PyVal)) (k a : String) (v : PyVal) :
    a ∈ (insertEntries l k v).map Prod.fst ↔ a ∈ l.map Prod.fst ∨ a = k := by
  induction l with
  | nil => simp [insertEntries]
  | cons p t ih =>
    obtain ⟨k0, v0⟩ := p
    by_cases h0 : k0 = k
    · subst h0
      simp [insertEntries]
      tauto
    · simp only [insertEntries, if_neg h0, List.map_cons, List.mem_cons, ih]
      tauto

theorem nodupKeys_insertEntries (l : List (String × PyVal)) (k : String) (v : PyVal)
    (h : (l.map Prod.fst).Nodup) : ((insertEntries l k v).map Prod.fst).Nodup := by
  induction l with
  | nil => simp [insertEntries]
  | cons p t ih =>
    obtain ⟨k0, v0⟩ := p
    simp only [List.map_cons, List.nodup_cons] at h
    by_cases h0 : k0 = k
    · subst h0
      have hred : insertEntries ((k0, v0) :: t) k0 v = (k0, v) :: t := by
        simp [insertEntries]
      rw [hred]
      simp only [List.map_cons, List.nodup_cons]
      exact h
    · simp only [insertEntries, if_neg h0, List.map_cons, List.nodup_cons]
      refine ⟨?_, ih h.2⟩
      rw [mem_keys_insertEntries]
      rintro (hm | hke)
      · exact h.1 hm
      · exact h0 hke

theorem nodupKeys_insert (d : PyDict) (k : String) (v : PyVal)
    (h : (d.entries.map Prod.fst).Nodup) :
    ((d.insert k v).entries.map Prod.fst).Nodup :=
  nodupKeys_insertEntries d.entries k v h

theorem lookup_foldl_insert (l : List (String × PyVal)) (d1 : PyDict)
    (hN : (l.map Prod.fst).Nodup) (k : String) :
    (l.foldl (fun a p => a.insert p.1 p.2) d1).lookup k =
      match lookupEntries l k with
      | some v => some v
      | none => d1.lookup k := by
  induction l generalizing d1 with
  | nil => rfl
  | cons p t ih =>
    obtain ⟨k0, v0⟩ := p
    simp only [List.map_cons, List.nodup_cons] at hN
    show (t.foldl (fun a p => a.insert p.1 p.2) (d1.insert k0 v0)).lookup k = _
    rw [ih (d1.insert k0 v0) hN.2]
    by_cases hk : k0 = k
    · subst hk
      have ht : lookupEntries t k0 = none := lookupEntries_eq_none_of_not_mem t k0 hN.1
      rw [ht]
      simp [lookupEntries, PyDict.lookup_insert]
    · cases hres : lookupEntries t k with
      | none => simp [lookupEntries, hk, hres, PyDict.lookup_insert]
      | some w => simp [lookupEntries, hk, hres]

/-- Lookup through Python `d1.update(d2)` when `d2` has no duplicate keys:
keys of `d2` win, all other keys fall through to `d1`. -/
theorem PyDict.lookup_updateAll (d1 d2 : PyDict)
    (hN : (d2.entries.map Prod.fst).Nodup) (k : String) :
    (d1.updateAll d2).lookup k =
      match d2.lookup k with
      | some v => some v
      | none => d1.lookup k :=
  lookup_foldl_insert d2.entries d1 hN k

theorem nodupKeys_updateAll (d1 d2 : PyDict)
    (h1 : (d1.entries.map Prod.fst).Nodup) :
    ((d1.updateAll d2).entries.map Prod.fst).Nodup := by
  show (((d2.entries.foldl (fun a p => a.insert p.1 p.2) d1)).entries.map Prod.fst).Nodup
  induction d2.entries generalizing d1 with
  | nil => exact h1
  | cons p t ih => exact ih (d1.insert p.1 p.2) (nodupKeys_insert d1 p.1 p.2 h1)

/-- C9 counterexample: with structure Si2 (2 sites) and caller metadata
already containing `nsites`, the caller's value overwrites the derived one —
the stored mapping holds 99, not the structure's site count 2, so the claim
that both sides are kept fails on key collisions. -/
theorem c9_counterexample :
    (add_metadata "RelaxFWWorkflow" (some ⟨2, ["Si"], "Si2"⟩)
        ⟨[("nsites", PyVal.int 99)]⟩ PyDict.empty).lookup "nsites" =
      some (PyVal.int 99) ∧
    (some (PyVal.int 99) : Option PyVal) ≠ some (PyVal.int 2) :=
  ⟨rfl, by decide⟩

/-- C9 (amended): for a structure argument and caller metadata without
duplicate keys, add_metadata stores a mapping in which `nsites`, `elements`
and `reduced_formula` carry the structure-derived values whenever the caller
did not supply those keys, and every caller-supplied key keeps its caller
value (on a key collision the caller's side wins and the derived value is
dropped). -/
theorem c9_amended_add_metadata (wt : String) (st : CrystalStructureModel)
    (add wfMeta : PyDict) (hN : (add.entries.map Prod.fst).Nodup) :
    ((add.lookup "nsites" = none →
       (add_metadata wt (some st) add wfMeta).lookup "nsites" =
         some (PyVal.int st.nsites)) ∧
     (add.lookup "elements" = none →
       (add_metadata wt (some st) add wfMeta).lookup "elements" =
         some (PyVal.strList st.elements)) ∧
     (add.lookup "reduced_formula" = none →
       (add_metadata wt (some st) add wfMeta).lookup "reduced_formula" =
         some (PyVal.str st.reduced_formula)) ∧
     (∀ k v, add.lookup k = some v →
       (add_metadata wt (some st) add wfMeta).lookup k = some v)) := by
  have hbase :
      ((((⟨[("wf_type", PyVal.str wt)]⟩ : PyDict).insert "nsites"
            (PyVal.int st.nsites)).insert "elements"
            (PyVal.strList st.elements)).insert "reduced_formula"
            (PyVal.str st.reduced_formula)).entries.map Prod.fst =
        ["wf_type", "nsites", "elements", "reduced_formula"] := rfl
  have hbN :
      (((((⟨[("wf_type", PyVal.str wt)]⟩ : PyDict).insert "nsites"
            (PyVal.int st.nsites)).insert "elements"
            (PyVal.strList st.elements)).insert "reduced_formula"
            (PyVal.str st.reduced_formula)).entries.map Prod.fst).Nodup := by
    rw [hbase]; decide
  have hMN := nodupKeys_updateAll _ add hbN
  refine ⟨?_, ?_, ?_, ?_⟩
  · intro hnone
    show (wfMeta.updateAll _).lookup "nsites" = _
    rw [PyDict.lookup_updateAll _ _ hMN, PyDict.lookup_updateAll _ _ hN, hnone]
    rfl
  · intro hnone
    show (wfMeta.updateAll _).lookup "elements" = _
    rw [PyDict.lookup_updateAll _ _ hMN, PyDict.lookup_updateAll _ _ hN, hnone]
    rfl
  · intro hnone
    show (wfMeta.updateAll _).lookup "reduced_formula" = _
    rw [PyDict.lookup_updateAll _ _ hMN, PyDict.lookup_updateAll _ _ hN, hnone]
    rfl
  · intro k v hkv
    show (wfMeta.updateAll _).lookup k = _
    rw [PyDict.lookup_updateAll _ _ hMN, PyDict.lookup_updateAll _ _ hN, hkv]

/-- C9 witness: the spec's Si2 example with one extra caller field, both
sides present in the stored mapping. -/
theorem c9_witness :
    (add_metadata "RelaxFWWorkflow" (some ⟨2, ["Si"], "Si2"⟩)
        ⟨[("source", PyVal.str "icsd")]⟩ PyDict.empty).lookup "nsites" =
      some (PyVal.int 2) ∧
    (add_metadata "RelaxFWWorkflow" (some ⟨2, ["Si"], "Si2"⟩)
        ⟨[("source", PyVal.str "icsd")]⟩ PyDict.empty).lookup "elements" =
      some (PyVal.strList ["Si"]) ∧
    (add_metadata "RelaxFWWorkflow" (some ⟨2, ["Si"], "Si2"⟩)
        ⟨[("source", PyVal.str "icsd")]⟩ PyDict.empty).lookup "reduced_formula" =
      some (PyVal.str "Si2") ∧
    (add_metadata "RelaxFWWorkflow" (some ⟨2, ["Si"], "Si2"⟩)
        ⟨[("source", PyVal.str "icsd")]⟩ PyDict.empty).lookup "source" =
      some (PyVal.str "icsd") :=
  ⟨(c9_amended_add_metadata "RelaxFWWorkflow" ⟨2, ["Si"], "Si2"⟩
      ⟨[("source", PyVal.str "icsd")]⟩ PyDict.empty (by decide)).1 (by decide),
   (c9_amended_add_metadata "RelaxFWWorkflow" ⟨2, ["Si"], "Si2"⟩
      ⟨[("source", PyVal.str "icsd")]⟩ PyDict.empty (by decide)).2.1 (by decide),
   (c9_amended_add_metadata "RelaxFWWorkflow" ⟨2, ["Si"], "Si2"⟩
      ⟨[("source", PyVal.str "icsd")]⟩ PyDict.empty (by decide)).2.2.1 (by decide),
   (c9_amended_add_metadata "RelaxFWWorkflow" ⟨2, ["Si"], "Si2"⟩
      ⟨[("source", PyVal.str "icsd")]⟩ PyDict.empty (by decide)).2.2.2 "source"
      (PyVal.str "icsd") (by decide)⟩
